import Mathlib

/-!
Shallow embedding of the Antkeeper rigid-body physics and collision core
(src/game/systems/physics-system.cpp, src/engine/physics/kinematics/rigid-body.cpp)
over exact rationals.  Square roots are threaded as an explicit function
parameter; theorems constrain it only at the points where the code applies it.
-/

namespace Antkeeper

/-- 3-component vector (embeds math::fvec3, src/engine/math/vector-functions.hpp). -/
structure Vec3 where
  x : ℚ
  y : ℚ
  z : ℚ
deriving DecidableEq

namespace Vec3

def add (a b : Vec3) : Vec3 := ⟨a.x + b.x, a.y + b.y, a.z + b.z⟩

def sub (a b : Vec3) : Vec3 := ⟨a.x - b.x, a.y - b.y, a.z - b.z⟩

def neg (a : Vec3) : Vec3 := ⟨-a.x, -a.y, -a.z⟩

/-- Componentwise product (used for transform scale). -/
def hmul (a b : Vec3) : Vec3 := ⟨a.x * b.x, a.y * b.y, a.z * b.z⟩

/-- Componentwise quotient (used for inverse transform scale). -/
def hdiv (a b : Vec3) : Vec3 := ⟨a.x / b.x, a.y / b.y, a.z / b.z⟩

def smul (s : ℚ) (a : Vec3) : Vec3 := ⟨s * a.x, s * a.y, s * a.z⟩

def divs (a : Vec3) (s : ℚ) : Vec3 := ⟨a.x / s, a.y / s, a.z / s⟩

instance : Add Vec3 := ⟨add⟩
instance : Sub Vec3 := ⟨sub⟩
instance : Neg Vec3 := ⟨neg⟩
instance : Mul Vec3 := ⟨hmul⟩
instance : HMul ℚ Vec3 Vec3 := ⟨smul⟩
instance : HMul Vec3 ℚ Vec3 := ⟨fun a s => smul s a⟩
instance : HDiv Vec3 ℚ Vec3 := ⟨divs⟩
instance : Zero Vec3 := ⟨⟨0, 0, 0⟩⟩

/-- math::dot (vector-functions.hpp line 521). -/
def dot (a b : Vec3) : ℚ := a.x * b.x + a.y * b.y + a.z * b.z

/-- math::cross (vector-functions.hpp line 536). -/
def cross (a b : Vec3) : Vec3 :=
  ⟨a.y * b.z - a.z * b.y, a.z * b.x - a.x * b.z, a.x * b.y - a.y * b.x⟩

/-- math::sqr_length (vector-functions.hpp line 561): dot of a vector with itself. -/
def sqr_length (v : Vec3) : ℚ := dot v v

/-- math::sqr_distance (vector-functions.hpp line 598). -/
def sqr_distance (a b : Vec3) : ℚ := sqr_length (a - b)

end Vec3

/-- Quaternion over the rationals.  Modelled from the spec: the quaternion header
is not among the provided sources; Hamilton product and vector rotation are the
standard formulas the spec presumes for orientations. -/
structure Quat where
  w : ℚ
  x : ℚ
  y : ℚ
  z : ℚ
deriving DecidableEq

namespace Quat

def add (a b : Quat) : Quat := ⟨a.w + b.w, a.x + b.x, a.y + b.y, a.z + b.z⟩

def sub (a b : Quat) : Quat := ⟨a.w - b.w, a.x - b.x, a.y - b.y, a.z - b.z⟩

def smul (s : ℚ) (a : Quat) : Quat := ⟨s * a.w, s * a.x, s * a.y, s * a.z⟩

/-- Hamilton product. -/
def mul (a b : Quat) : Quat :=
  ⟨a.w * b.w - a.x * b.x - a.y * b.y - a.z * b.z,
   a.w * b.x + a.x * b.w + a.y * b.z - a.z * b.y,
   a.w * b.y - a.x * b.z + a.y * b.w + a.z * b.x,
   a.w * b.z + a.x * b.y - a.y * b.x + a.z * b.w⟩

def conj (a : Quat) : Quat := ⟨a.w, -a.x, -a.y, -a.z⟩

instance : Add Quat := ⟨add⟩
instance : Sub Quat := ⟨sub⟩
instance : Mul Quat := ⟨mul⟩
instance : HMul ℚ Quat Quat := ⟨smul⟩
instance : HMul Quat ℚ Quat := ⟨fun a s => smul s a⟩
instance : One Quat := ⟨⟨1, 0, 0, 0⟩⟩

def sqr_norm (a : Quat) : ℚ := a.w * a.w + a.x * a.x + a.y * a.y + a.z * a.z

/-- Rotation of a vector by a unit quaternion: vector part of q (0,v) conj q. -/
def rotate (q : Quat) (v : Vec3) : Vec3 :=
  let p := mul (mul q ⟨0, v.x, v.y, v.z⟩) (conj q)
  ⟨p.x, p.y, p.z⟩

end Quat

/-- 3x3 matrix (body-space inverse inertia tensor), stored as rows. -/
structure Mat3 where
  r0 : Vec3
  r1 : Vec3
  r2 : Vec3
deriving DecidableEq

namespace Mat3

def mulVec (m : Mat3) (v : Vec3) : Vec3 :=
  ⟨Vec3.dot m.r0 v, Vec3.dot m.r1 v, Vec3.dot m.r2 v⟩

instance : HMul Mat3 Vec3 Vec3 := ⟨mulVec⟩
instance : Zero Mat3 := ⟨⟨0, 0, 0⟩⟩

end Mat3

/-- A TRS transform.  Modelled from the spec: the math::transform header is not
among the provided sources; application is the standard
translation + rotation * (scale * point) the spec presumes for world transforms. -/
structure Transform where
  translation : Vec3
  rotation : Quat
  scale : Vec3
deriving DecidableEq

namespace Transform

/-- Application of a transform to a point (world-space placement). -/
def apply (t : Transform) (p : Vec3) : Vec3 :=
  t.translation + Quat.rotate t.rotation (t.scale * p)

def identity : Transform := ⟨0, 1, ⟨1, 1, 1⟩⟩

end Transform

/-- math::lerp on vectors (src/engine/math/interpolation.hpp line 41): x + (y - x) * a. -/
def lerp (x y : Vec3) (a : ℚ) : Vec3 := x + (y - x) * a

/-- math::lerp instantiated at quaternions (same formula, interpolation.hpp line 41). -/
def lerpq (x y : Quat) (a : ℚ) : Quat := x + (y - x) * a

/-- Normalized linear quaternion interpolation.  Modelled from the spec:
math::nlerp is not among the provided sources; the spec calls for
"spherical (normalized-lerp) interpolation of rotation", i.e. the lerp of the
two quaternions scaled back to unit length. -/
def nlerp (sq : ℚ → ℚ) (x y : Quat) (a : ℚ) : Quat :=
  let l := lerpq x y a
  Quat.smul (1 / sq (Quat.sqr_norm l)) l

/-- Material combine mode.  Modelled from the spec: the physical-material header
is not among the provided sources; the spec names "max", "average", "min"
(and product) modes, with the higher-valued mode of the two bodies winning. -/
inductive combine_mode where
  | average
  | minimum
  | multiply
  | maximum
deriving DecidableEq

/-- Priority used to pick the winning combine mode (std::max over the enum). -/
def combine_mode.priority : combine_mode → Nat
  | .average => 0
  | .minimum => 1
  | .multiply => 2
  | .maximum => 3

/-- The higher-priority combine mode of the two bodies wins. -/
def combine_mode.max (a b : combine_mode) : combine_mode :=
  if a.priority ≤ b.priority then b else a

/-- Coefficient combination.  Modelled from the spec: "applying that single
mode's combination formula to the coefficient values". -/
def combine_coefficients (a b : ℚ) : combine_mode → ℚ
  | .average => (a + b) / 2
  | .minimum => min a b
  | .multiply => a * b
  | .maximum => max a b

/-- physics::combine_friction.  Modelled from the spec (see combine_coefficients). -/
def combine_friction (a b : ℚ) (mode : combine_mode) : ℚ := combine_coefficients a b mode

/-- physics::combine_restitution.  Modelled from the spec (see combine_coefficients). -/
def combine_restitution (a b : ℚ) (mode : combine_mode) : ℚ := combine_coefficients a b mode

/-- Physical material.  Modelled from the spec: static/dynamic friction,
restitution, and a combine mode for each of friction and restitution. -/
structure Material where
  static_friction : ℚ
  dynamic_friction : ℚ
  restitution : ℚ
  friction_combine_mode : combine_mode
  restitution_combine_mode : combine_mode
deriving DecidableEq

/-- Collider shape variants (plane, sphere, box, capsule, mesh collider headers;
shape parameters as read by physics-system.cpp).  The mesh triangle soup and its
spatial accelerator are external: a mesh shape carries only an identifier, and
ray tracing receives the accelerator query as a function. -/
inductive collider_shape where
  | plane (normal : Vec3) (constant : ℚ)
  | sphere (center : Vec3) (radius : ℚ)
  | box (corner_min corner_max : Vec3)
  | capsule (seg_a seg_b : Vec3) (radius : ℚ)
  | mesh (mesh_id : Nat)
deriving DecidableEq

/-- Collider: shape + layer bitmask + material (collider base class fields used
by physics-system.cpp). -/
structure Collider where
  shape : collider_shape
  layer_mask : Nat
  material : Material
deriving DecidableEq

/-- Rigid body state (physics::rigid_body, rigid-body.cpp and its header). -/
structure rigid_body where
  inverse_mass : ℚ
  inverse_inertia : Mat3
  linear_damping : ℚ
  angular_damping : ℚ
  linear_momentum : Vec3
  angular_momentum : Vec3
  linear_velocity : Vec3
  angular_velocity : Vec3
  applied_force : Vec3
  applied_torque : Vec3
  current_transform : Transform
  previous_transform : Transform
  collider : Option Collider
deriving DecidableEq

namespace rigid_body

/-- Body position = current transform translation. -/
def get_position (b : rigid_body) : Vec3 := b.current_transform.translation

/-- Body orientation = current transform rotation. -/
def get_orientation (b : rigid_body) : Quat := b.current_transform.rotation

def set_position (b : rigid_body) (p : Vec3) : rigid_body :=
  { b with current_transform := { b.current_transform with translation := p } }

/-- A body is static when its inverse mass is zero (spec data model). -/
def is_static (b : rigid_body) : Prop := b.inverse_mass = 0

instance (b : rigid_body) : Decidable b.is_static :=
  inferInstanceAs (Decidable (b.inverse_mass = 0))

/-- rigid_body::integrate_forces (rigid-body.cpp lines 26-43): apply accumulated
force/torque to the momenta, damp, recompute velocities, clear accumulators. -/
def integrate_forces (b : rigid_body) (dt : ℚ) : rigid_body :=
  let linear_momentum := (b.linear_momentum + b.applied_force * dt) *
    (max 0 (1 - b.linear_damping * dt))
  let angular_momentum := (b.angular_momentum + b.applied_torque * dt) *
    (max 0 (1 - b.angular_damping * dt))
  { b with
    linear_momentum := linear_momentum
    angular_momentum := angular_momentum
    linear_velocity := b.inverse_mass * linear_momentum
    angular_velocity := b.inverse_inertia * angular_momentum
    applied_force := 0
    applied_torque := 0 }

/-- rigid_body::apply_impulse.  Modelled from the spec: the rigid-body header is
not among the provided sources; the spec gives
"linear momentum += impulse; angular momentum += cross(point_relative_to_center, impulse)",
and velocities are always recomputed from momentum (spec data-model invariant). -/
def apply_impulse (b : rigid_body) (impulse radius : Vec3) : rigid_body :=
  let linear_momentum := b.linear_momentum + impulse
  let angular_momentum := b.angular_momentum + Vec3.cross radius impulse
  { b with
    linear_momentum := linear_momentum
    angular_momentum := angular_momentum
    linear_velocity := b.inverse_mass * linear_momentum
    angular_velocity := b.inverse_inertia * angular_momentum }

/-- rigid_body::get_point_velocity.  Modelled from the spec: the rigid-body
header is not among the provided sources; the velocity of a point rigidly
attached at offset r is v + ω × r. -/
def get_point_velocity (b : rigid_body) (radius : Vec3) : Vec3 :=
  b.linear_velocity + Vec3.cross b.angular_velocity radius

/-- rigid_body::interpolate (rigid-body.cpp lines 58-66): lerp of translation
and scale, nlerp of rotation, between previous and current transform. -/
def interpolate (sq : ℚ → ℚ) (b : rigid_body) (alpha : ℚ) : Transform :=
  { translation := lerp b.previous_transform.translation b.current_transform.translation alpha
    rotation := nlerp sq b.previous_transform.rotation b.current_transform.rotation alpha
    scale := lerp b.previous_transform.scale b.current_transform.scale alpha }

end rigid_body

/-- geom::plane signed distance.  Modelled from the spec: the geom plane header
is not among the provided sources; the spec gives
"signed distance = dot(normal, point) + constant", matching the inline
computation in narrow_phase_plane_sphere. -/
def plane_distance (normal : Vec3) (constant : ℚ) (p : Vec3) : ℚ :=
  Vec3.dot normal p + constant

/-- Clamp a rational to the unit interval. -/
def clamp01 (t : ℚ) : ℚ := max 0 (min 1 t)

/-- geom::closest_point of a segment and a point.  Modelled from the spec: the
closest-point header is not among the provided sources; the spec asks for the
"closest point on the world-space capsule segment to the sphere center", the
clamped projection of the point onto the segment. -/
def closest_point_segment (a b p : Vec3) : Vec3 :=
  let ab := b - a
  let d := Vec3.dot ab ab
  if d = 0 then a else a + ab * clamp01 (Vec3.dot (p - a) ab / d)

/-- geom::closest_point of two segments.  Modelled from the spec: the
closest-point header is not among the provided sources; the spec asks for the
standard "3D segment-segment closest point query" (clamped bilinear
minimisation with degenerate segments handled separately). -/
def closest_point_segments (p1 q1 p2 q2 : Vec3) : Vec3 × Vec3 :=
  let d1 := q1 - p1
  let d2 := q2 - p2
  let r := p1 - p2
  let a := Vec3.dot d1 d1
  let e := Vec3.dot d2 d2
  let f := Vec3.dot d2 r
  if a = 0 ∧ e = 0 then (p1, p2)
  else if a = 0 then (p1, p2 + d2 * clamp01 (f / e))
  else
    let c := Vec3.dot d1 r
    if e = 0 then (p1 + d1 * clamp01 (-c / a), p2)
    else
      let b := Vec3.dot d1 d2
      let denom := a * e - b * b
      let s0 := if denom = 0 then 0 else clamp01 ((b * f - c * e) / denom)
      let t0 := (b * s0 + f) / e
      let st :=
        if t0 < 0 then (clamp01 (-c / a), (0 : ℚ))
        else if 1 < t0 then (clamp01 ((b - c) / a), (1 : ℚ))
        else (s0, t0)
      (p1 + d1 * st.1, p2 + d2 * st.2)

/-- physics::collision_contact: world-space point, unit normal away from body A,
non-negative penetration depth. -/
structure collision_contact where
  point : Vec3
  normal : Vec3
  depth : ℚ
deriving DecidableEq

/-- physics::collision_manifold: the two bodies and up to four contacts (the
fixed-capacity contact array together with contact_count is embedded as a list,
whose length is the contact count). -/
structure collision_manifold where
  body_a : rigid_body
  body_b : rigid_body
  contacts : List collision_contact
deriving DecidableEq

def collision_manifold.contact_count (m : collision_manifold) : Nat := m.contacts.length

/-- physics_system::narrow_phase_plane_plane (physics-system.cpp line 359): no-op. -/
def narrow_phase_plane_plane (_a _b : rigid_body) : Option collision_manifold := none

/-- physics_system::narrow_phase_plane_sphere (physics-system.cpp lines 364-392). -/
def narrow_phase_plane_sphere (body_a body_b : rigid_body) : Option collision_manifold :=
  match body_a.collider, body_b.collider with
  | some ⟨.plane normal constant, _, _⟩, some ⟨.sphere _center radius, _, _⟩ =>
    let plane_normal := Quat.rotate body_a.get_orientation normal
    let plane_constant := constant - Vec3.dot plane_normal body_a.get_position
    let signed_distance := Vec3.dot plane_normal body_b.get_position + plane_constant
    if radius < signed_distance then none
    else
      some
        { body_a := body_a
          body_b := body_b
          contacts :=
            [{ point := body_b.get_position - plane_normal * radius
               normal := plane_normal
               depth := abs (signed_distance - radius) }] }
  | _, _ => none

/-- Corner-collection loop of narrow_phase_plane_box (physics-system.cpp lines
422-443): append a contact per corner with signed distance at most zero,
stopping once four contacts have been collected. -/
def plane_box_collect (plane_normal : Vec3) (plane_constant : ℚ) :
    List Vec3 → List collision_contact → List collision_contact
  | [], acc => acc
  | point :: rest, acc =>
    let signed_distance := Vec3.dot plane_normal point + plane_constant
    if signed_distance ≤ 0 then
      let acc2 := acc ++ [{ point := point, normal := plane_normal, depth := abs signed_distance }]
      if 4 ≤ acc2.length then acc2
      else plane_box_collect plane_normal plane_constant rest acc2
    else plane_box_collect plane_normal plane_constant rest acc

/-- physics_system::narrow_phase_plane_box (physics-system.cpp lines 394-451). -/
def narrow_phase_plane_box (body_a body_b : rigid_body) : Option collision_manifold :=
  match body_a.collider, body_b.collider with
  | some ⟨.plane normal constant, _, _⟩, some ⟨.box box_min box_max, _, _⟩ =>
    let plane_normal := Quat.rotate body_a.get_orientation normal
    let plane_constant := constant - Vec3.dot plane_normal body_a.get_position
    let corners : List Vec3 :=
      [⟨box_min.x, box_min.y, box_min.z⟩,
       ⟨box_min.x, box_min.y, box_max.z⟩,
       ⟨box_min.x, box_max.y, box_min.z⟩,
       ⟨box_min.x, box_max.y, box_max.z⟩,
       ⟨box_max.x, box_min.y, box_min.z⟩,
       ⟨box_max.x, box_min.y, box_max.z⟩,
       ⟨box_max.x, box_max.y, box_min.z⟩,
       ⟨box_max.x, box_max.y, box_max.z⟩]
    let world_corners := corners.map (Transform.apply body_b.current_transform)
    let contacts := plane_box_collect plane_normal plane_constant world_corners []
    if contacts.length ≠ 0 then
      some { body_a := body_a, body_b := body_b, contacts := contacts }
    else none
  | _, _ => none

/-- physics_system::narrow_phase_plane_capsule (physics-system.cpp lines 453-508). -/
def narrow_phase_plane_capsule (body_a body_b : rigid_body) : Option collision_manifold :=
  match body_a.collider, body_b.collider with
  | some ⟨.plane normal constant, _, _⟩, some ⟨.capsule seg_a seg_b radius, _, _⟩ =>
    let plane_normal := Quat.rotate body_a.get_orientation normal
    let plane_constant := constant - Vec3.dot plane_normal body_a.get_position
    let world_a := Transform.apply body_b.current_transform seg_a
    let world_b := Transform.apply body_b.current_transform seg_b
    let distance_a := plane_distance plane_normal plane_constant world_a
    let distance_b := plane_distance plane_normal plane_constant world_b
    let contacts_a : List collision_contact :=
      if distance_a ≤ radius then
        [{ point := world_a - plane_normal * radius
           normal := plane_normal
           depth := abs (distance_a - radius) }]
      else []
    let contacts_b : List collision_contact :=
      if distance_b ≤ radius then
        [{ point := world_b - plane_normal * radius
           normal := plane_normal
           depth := abs (distance_b - radius) }]
      else []
    let contacts := contacts_a ++ contacts_b
    if contacts.length ≠ 0 then
      some { body_a := body_a, body_b := body_b, contacts := contacts }
    else none
  | _, _ => none

/-- physics_system::narrow_phase_sphere_sphere (physics-system.cpp lines 515-560). -/
def narrow_phase_sphere_sphere (sq : ℚ → ℚ) (body_a body_b : rigid_body) :
    Option collision_manifold :=
  match body_a.collider, body_b.collider with
  | some ⟨.sphere center_a_local radius_a, _, _⟩, some ⟨.sphere center_b_local radius_b, _, _⟩ =>
    let center_a := Transform.apply body_a.current_transform center_a_local
    let center_b := Transform.apply body_b.current_transform center_b_local
    let sum_radii := radius_a + radius_b
    let difference := center_b - center_a
    let sqr_dist := Vec3.sqr_length difference
    if sum_radii * sum_radii < sqr_dist then none
    else if sqr_dist = 0 then none
    else
      let distance := sq sqr_dist
      let normal := difference / distance
      let depth := sum_radii - distance
      some
        { body_a := body_a
          body_b := body_b
          contacts :=
            [{ point := center_a + normal * (radius_a - depth * (1 / 2))
               normal := normal
               depth := depth }] }
  | _, _ => none

/-- physics_system::narrow_phase_sphere_capsule (physics-system.cpp lines 567-619). -/
def narrow_phase_sphere_capsule (sq : ℚ → ℚ) (body_a body_b : rigid_body) :
    Option collision_manifold :=
  match body_a.collider, body_b.collider with
  | some ⟨.sphere center_local radius_a, _, _⟩, some ⟨.capsule seg_a seg_b radius_b, _, _⟩ =>
    let center_a := Transform.apply body_a.current_transform center_local
    let world_a := Transform.apply body_b.current_transform seg_a
    let world_b := Transform.apply body_b.current_transform seg_b
    let sum_radii := radius_a + radius_b
    let closest := closest_point_segment world_a world_b center_a
    let difference := closest - center_a
    let sqr_dist := Vec3.sqr_length difference
    if sum_radii * sum_radii < sqr_dist then none
    else if sqr_dist = 0 then none
    else
      let distance := sq sqr_dist
      let normal := difference / distance
      let depth := sum_radii - distance
      some
        { body_a := body_a
          body_b := body_b
          contacts :=
            [{ point := center_a + normal * (radius_a - depth * (1 / 2))
               normal := normal
               depth := depth }] }
  | _, _ => none

/-- physics_system::narrow_phase_capsule_capsule (physics-system.cpp lines 656-716). -/
def narrow_phase_capsule_capsule (sq : ℚ → ℚ) (body_a body_b : rigid_body) :
    Option collision_manifold :=
  match body_a.collider, body_b.collider with
  | some ⟨.capsule a1 b1 radius_a, _, _⟩, some ⟨.capsule a2 b2 radius_b, _, _⟩ =>
    let p1 := Transform.apply body_a.current_transform a1
    let q1 := Transform.apply body_a.current_transform b1
    let p2 := Transform.apply body_b.current_transform a2
    let q2 := Transform.apply body_b.current_transform b2
    let closest := closest_point_segments p1 q1 p2 q2
    let sum_radii := radius_a + radius_b
    let difference := closest.2 - closest.1
    let sqr_dist := Vec3.sqr_length difference
    if sum_radii * sum_radii < sqr_dist then none
    else if sqr_dist = 0 then none
    else
      let distance := sq sqr_dist
      let normal := difference / distance
      let depth := sum_radii - distance
      some
        { body_a := body_a
          body_b := body_b
          contacts :=
            [{ point := closest.1 + normal * (radius_a - depth * (1 / 2))
               normal := normal
               depth := depth }] }
  | _, _ => none

/-- physics_system::narrow_phase_sphere_plane (line 510): delegate with swapped
arguments. -/
def narrow_phase_sphere_plane (body_a body_b : rigid_body) : Option collision_manifold :=
  narrow_phase_plane_sphere body_b body_a

/-- physics_system::narrow_phase_box_plane (line 621): delegate with swapped
arguments. -/
def narrow_phase_box_plane (body_a body_b : rigid_body) : Option collision_manifold :=
  narrow_phase_plane_box body_b body_a

/-- physics_system::narrow_phase_capsule_plane (line 641): delegate with swapped
arguments. -/
def narrow_phase_capsule_plane (body_a body_b : rigid_body) : Option collision_manifold :=
  narrow_phase_plane_capsule body_b body_a

/-- physics_system::narrow_phase_capsule_sphere (line 646): delegate with
swapped arguments. -/
def narrow_phase_capsule_sphere (sq : ℚ → ℚ) (body_a body_b : rigid_body) :
    Option collision_manifold :=
  narrow_phase_sphere_capsule sq body_b body_a

/-- The narrow-phase dispatch table (physics-system.cpp constructor, lines
23-47), keyed by the two collider shape tags.  Unimplemented cells
(sphere-box, box-sphere, box-box, box-capsule, capsule-box, lines 562-654) are
no-ops; mesh colliders are excluded from pairwise narrow phase (spec section 4.3). -/
def narrow_phase (sq : ℚ → ℚ) (body_a body_b : rigid_body) : Option collision_manifold :=
  match body_a.collider, body_b.collider with
  | some collider_a, some collider_b =>
    match collider_a.shape, collider_b.shape with
    | .plane _ _, .plane _ _ => narrow_phase_plane_plane body_a body_b
    | .plane _ _, .sphere _ _ => narrow_phase_plane_sphere body_a body_b
    | .plane _ _, .box _ _ => narrow_phase_plane_box body_a body_b
    | .plane _ _, .capsule _ _ _ => narrow_phase_plane_capsule body_a body_b
    | .sphere _ _, .plane _ _ => narrow_phase_sphere_plane body_a body_b
    | .sphere _ _, .sphere _ _ => narrow_phase_sphere_sphere sq body_a body_b
    | .sphere _ _, .box _ _ => none
    | .sphere _ _, .capsule _ _ _ => narrow_phase_sphere_capsule sq body_a body_b
    | .box _ _, .plane _ _ => narrow_phase_box_plane body_a body_b
    | .box _ _, .sphere _ _ => none
    | .box _ _, .box _ _ => none
    | .box _ _, .capsule _ _ _ => none
    | .capsule _ _ _, .plane _ _ => narrow_phase_capsule_plane body_a body_b
    | .capsule _ _ _, .sphere _ _ => narrow_phase_capsule_sphere sq body_a body_b
    | .capsule _ _ _, .box _ _ => none
    | .capsule _ _ _, .capsule _ _ _ => narrow_phase_capsule_capsule sq body_a body_b
    | .mesh _, _ => none
    | _, .mesh _ => none
  | _, _ => none

/-- Broad-phase pair condition (physics-system.cpp lines 200-228): both bodies
carry a collider, the layer masks intersect, and the bodies are not both
static. -/
def broad_phase_cond (body_a body_b : rigid_body) : Prop :=
  body_a.collider.isSome = true ∧ body_b.collider.isSome = true ∧
  (body_a.collider.elim 0 Collider.layer_mask) &&& (body_b.collider.elim 0 Collider.layer_mask) ≠ 0 ∧
  ¬(body_a.is_static ∧ body_b.is_static)

instance (body_a body_b : rigid_body) : Decidable (broad_phase_cond body_a body_b) :=
  inferInstanceAs (Decidable (_ ∧ _ ∧ _ ∧ _))

/-- physics_system::detect_collisions_broad (physics-system.cpp lines 193-233):
all ordered index pairs i before j whose bodies satisfy the pair condition, in
iteration order. -/
def detect_collisions_broad (n : Nat) (body : Fin n → rigid_body) :
    List (Fin n × Fin n) :=
  (List.finRange n).flatMap fun i =>
    (List.finRange n).filterMap fun j =>
      if i < j ∧ broad_phase_cond (body i) (body j) then some (i, j) else none

/-- physics_system::detect_collisions_narrow (physics-system.cpp lines 235-246):
run the dispatch table over every broad-phase pair, collecting the manifolds. -/
def detect_collisions_narrow (sq : ℚ → ℚ) (n : Nat) (body : Fin n → rigid_body)
    (pairs : List (Fin n × Fin n)) : List collision_manifold :=
  pairs.filterMap fun p => narrow_phase sq (body p.1) (body p.2)

/-- The shared denominator of the reaction and friction impulse magnitudes
(physics-system.cpp lines 288-294 and 314-320):
sum_inverse_mass + dot(cross(Ia·(ra×d), ra) + cross(Ib·(rb×d), rb), d). -/
def impulse_denominator (sum_inverse_mass : ℚ) (inertia_a inertia_b : Mat3)
    (radius_a radius_b direction : Vec3) : ℚ :=
  sum_inverse_mass +
    Vec3.dot
      (Vec3.cross (inertia_a * Vec3.cross radius_a direction) radius_a +
       Vec3.cross (inertia_b * Vec3.cross radius_b direction) radius_b)
      direction

/-- All intermediate values and the two updated bodies produced by the
per-contact body of physics_system::resolve_collisions (physics-system.cpp
lines 270-332).  The pre-clamp friction magnitude is recorded alongside the
applied one so the Coulomb clamp can be stated. -/
structure contact_result where
  body_a : rigid_body
  body_b : rigid_body
  skipped : Bool
  contact_velocity : ℚ
  reaction_impulse_den : ℚ
  reaction_impulse_mag : ℚ
  reaction_impulse : Vec3
  contact_tangent : Vec3
  friction_impulse_den : ℚ
  friction_impulse_mag_unclamped : ℚ
  friction_impulse_mag : ℚ
  friction_impulse : Vec3

/-- Per-contact body of physics_system::resolve_collisions (physics-system.cpp
lines 270-332), with the per-manifold coefficients passed in. -/
def resolve_contact (sq : ℚ → ℚ)
    (restitution_coef static_friction_coef dynamic_friction_coef
      sum_inverse_mass impulse_scale : ℚ)
    (body_a body_b : rigid_body) (contact : collision_contact) : contact_result :=
  let radius_a := contact.point - body_a.get_position
  let radius_b := contact.point - body_b.get_position
  let relative_velocity :=
    body_b.get_point_velocity radius_b - body_a.get_point_velocity radius_a
  let contact_velocity := Vec3.dot relative_velocity contact.normal
  if 0 < contact_velocity then
    { body_a := body_a, body_b := body_b, skipped := true
      contact_velocity := contact_velocity
      reaction_impulse_den := 0, reaction_impulse_mag := 0, reaction_impulse := 0
      contact_tangent := 0, friction_impulse_den := 0
      friction_impulse_mag_unclamped := 0, friction_impulse_mag := 0
      friction_impulse := 0 }
  else
    let reaction_impulse_num := -(1 + restitution_coef) * contact_velocity
    let reaction_impulse_den := impulse_denominator sum_inverse_mass
      body_a.inverse_inertia body_b.inverse_inertia radius_a radius_b contact.normal
    let reaction_impulse_mag := reaction_impulse_num / reaction_impulse_den * impulse_scale
    let reaction_impulse := contact.normal * reaction_impulse_mag
    let body_a1 := body_a.apply_impulse (-reaction_impulse) radius_a
    let body_b1 := body_b.apply_impulse reaction_impulse radius_b
    let tangent0 := relative_velocity - contact.normal * contact_velocity
    let sqr_tangent_length := Vec3.sqr_length tangent0
    let contact_tangent :=
      if 0 < sqr_tangent_length then tangent0 / sq sqr_tangent_length else tangent0
    let friction_impulse_num := Vec3.dot relative_velocity (-contact_tangent)
    let friction_impulse_den := impulse_denominator sum_inverse_mass
      body_a.inverse_inertia body_b.inverse_inertia radius_a radius_b contact_tangent
    let friction_unclamped := friction_impulse_num / friction_impulse_den * impulse_scale
    let friction_impulse_mag :=
      if reaction_impulse_mag * static_friction_coef ≤ abs friction_unclamped then
        (-reaction_impulse_mag) * dynamic_friction_coef
      else friction_unclamped
    let friction_impulse := contact_tangent * friction_impulse_mag
    { body_a := body_a1.apply_impulse (-friction_impulse) radius_a
      body_b := body_b1.apply_impulse friction_impulse radius_b
      skipped := false
      contact_velocity := contact_velocity
      reaction_impulse_den := reaction_impulse_den
      reaction_impulse_mag := reaction_impulse_mag
      reaction_impulse := reaction_impulse
      contact_tangent := contact_tangent
      friction_impulse_den := friction_impulse_den
      friction_impulse_mag_unclamped := friction_unclamped
      friction_impulse_mag := friction_impulse_mag
      friction_impulse := friction_impulse }

/-- Placeholder material used when a manifold body unexpectedly lacks a
collider (never the case for manifolds produced by the dispatch table). -/
def default_material : Material := ⟨0, 0, 0, .average, .average⟩

/-- Per-manifold body of physics_system::resolve_collisions (physics-system.cpp
lines 250-333): combine the materials, then run the per-contact resolution over
the contacts in order, threading the mutated bodies. -/
def resolve_manifold (sq : ℚ → ℚ) (m : collision_manifold) : rigid_body × rigid_body :=
  let material_a := m.body_a.collider.elim default_material Collider.material
  let material_b := m.body_b.collider.elim default_material Collider.material
  let restitution_combine :=
    combine_mode.max material_a.restitution_combine_mode material_b.restitution_combine_mode
  let restitution_coef :=
    combine_restitution material_a.restitution material_b.restitution restitution_combine
  let friction_combine :=
    combine_mode.max material_a.friction_combine_mode material_b.friction_combine_mode
  let static_friction_coef :=
    combine_friction material_a.static_friction material_b.static_friction friction_combine
  let dynamic_friction_coef :=
    combine_friction material_a.dynamic_friction material_b.dynamic_friction friction_combine
  let sum_inverse_mass := m.body_a.inverse_mass + m.body_b.inverse_mass
  let impulse_scale : ℚ := 1 / (m.contact_count : ℚ)
  m.contacts.foldl
    (fun ab contact =>
      let r := resolve_contact sq restitution_coef static_friction_coef dynamic_friction_coef
        sum_inverse_mass impulse_scale ab.1 ab.2 contact
      (r.body_a, r.body_b))
    (m.body_a, m.body_b)

/-- Penetration-depth threshold of physics_system::correct_positions
(physics-system.cpp line 338). -/
def depth_threshold : ℚ := 1 / 100

/-- Correction factor of physics_system::correct_positions (physics-system.cpp
line 339). -/
def correction_factor : ℚ := 2 / 5

/-- Per-contact body of physics_system::correct_positions (physics-system.cpp
lines 349-354): offset each body position along the contact normal in
proportion to its inverse mass. -/
def correct_contact (sum_inverse_mass : ℚ) (body_a body_b : rigid_body)
    (contact : collision_contact) : rigid_body × rigid_body :=
  let correction :=
    contact.normal * (max 0 (contact.depth - depth_threshold) / sum_inverse_mass) *
      correction_factor
  (body_a.set_position (body_a.get_position - correction * body_a.inverse_mass),
   body_b.set_position (body_b.get_position + correction * body_b.inverse_mass))

/-- Per-manifold body of physics_system::correct_positions (physics-system.cpp
lines 341-356). -/
def correct_manifold (m : collision_manifold) : rigid_body × rigid_body :=
  let sum_inverse_mass := m.body_a.inverse_mass + m.body_b.inverse_mass
  m.contacts.foldl
    (fun ab contact => correct_contact sum_inverse_mass ab.1 ab.2 contact)
    (m.body_a, m.body_b)

/-- geom::ray. -/
structure Ray where
  origin : Vec3
  direction : Vec3
deriving DecidableEq

/-- geom::ray::extrapolate: origin + direction * t. -/
def Ray.extrapolate (r : Ray) (t : ℚ) : Vec3 := r.origin + r.direction * t

/-- math::normalize (vector-functions.hpp line 588): v divided by its length. -/
def normalize (sq : ℚ → ℚ) (v : Vec3) : Vec3 := v / sq (Vec3.sqr_length v)

/-- Rotation by the conjugate quaternion.  Modelled from the spec: the
vector-times-quaternion operator of the missing quaternion header realises the
inverse rotation used to take "the ray ... into each candidate body's local
space". -/
def inv_rotate (q : Quat) (v : Vec3) : Vec3 := Quat.rotate (Quat.conj q) v

/-- Loop body of physics_system::trace (physics-system.cpp lines 105-152): skip
the ignored entity, bodies without colliders, layer-mask mismatches and
non-mesh colliders; otherwise query the mesh accelerator in body space and keep
the hit with the strictly smallest squared world-space distance.  The
accumulator holds (entity id, squared distance, face index, world normal).
The mesh spatial accelerator is external and passed in as a function from mesh
identifier and body-space ray to an optional (ray parameter, face index,
body-space normal). -/
def trace_step (sq : ℚ → ℚ) (intersect : Nat → Ray → Option (ℚ × Nat × Vec3))
    (ray : Ray) (ignore_eid : Nat) (layer_mask : Nat)
    (state : Option (Nat × ℚ × Nat × Vec3)) (entry : Nat × rigid_body) :
    Option (Nat × ℚ × Nat × Vec3) :=
  if entry.1 = ignore_eid then state
  else
    match entry.2.collider with
    | none => state
    | some collider =>
      if collider.layer_mask &&& layer_mask = 0 then state
      else
        match collider.shape with
        | .mesh mesh_id =>
          let t := entry.2.current_transform
          let bs_ray : Ray :=
            { origin := Vec3.hdiv (inv_rotate t.rotation (ray.origin - t.translation)) t.scale
              direction := normalize sq (Vec3.hdiv (inv_rotate t.rotation ray.direction) t.scale) }
          match intersect mesh_id bs_ray with
          | none => state
          | some hit =>
            let point := Transform.apply t (bs_ray.extrapolate hit.1)
            let sqr_dist := Vec3.sqr_distance point ray.origin
            let hit_normal :=
              normalize sq (Quat.rotate t.rotation (Vec3.hdiv hit.2.2 t.scale))
            match state with
            | none => some (entry.1, sqr_dist, hit.2.1, hit_normal)
            | some nearest =>
              if sqr_dist < nearest.2.1 then some (entry.1, sqr_dist, hit.2.1, hit_normal)
              else state
        | _ => state

/-- physics_system::trace (physics-system.cpp lines 96-160): linear scan over
the rigid bodies tracking the nearest mesh hit; the squared distance of the
winner is converted to a distance in the returned tuple. -/
def trace (sq : ℚ → ℚ) (intersect : Nat → Ray → Option (ℚ × Nat × Vec3))
    (entities : List (Nat × rigid_body)) (ray : Ray) (ignore_eid : Nat)
    (layer_mask : Nat) : Option (Nat × ℚ × Nat × Vec3) :=
  (entities.foldl (trace_step sq intersect ray ignore_eid layer_mask) none).map
    fun r => (r.1, sq r.2.1, r.2.2)

/-- The contribution of a single entity to the trace scan, independent of the
accumulator: none when the entity is ignored, has no collider, shares no layer
bit, is not a mesh collider, or the accelerator reports no intersection;
otherwise the (entity id, squared distance, face index, world normal) the loop
body of physics_system::trace would compare against the running nearest hit. -/
def trace_candidate_hit (sq : ℚ → ℚ) (intersect : Nat → Ray → Option (ℚ × Nat × Vec3))
    (ray : Ray) (ignore_eid : Nat) (layer_mask : Nat) (entry : Nat × rigid_body) :
    Option (Nat × ℚ × Nat × Vec3) :=
  if entry.1 = ignore_eid then none
  else
    match entry.2.collider with
    | none => none
    | some collider =>
      if collider.layer_mask &&& layer_mask = 0 then none
      else
        match collider.shape with
        | .mesh mesh_id =>
          let t := entry.2.current_transform
          let bs_ray : Ray :=
            { origin := Vec3.hdiv (inv_rotate t.rotation (ray.origin - t.translation)) t.scale
              direction := normalize sq (Vec3.hdiv (inv_rotate t.rotation ray.direction) t.scale) }
          match intersect mesh_id bs_ray with
          | none => none
          | some hit =>
            some (entry.1,
              Vec3.sqr_distance (Transform.apply t (bs_ray.extrapolate hit.1)) ray.origin,
              hit.2.1,
              normalize sq (Quat.rotate t.rotation (Vec3.hdiv hit.2.2 t.scale)))
        | _ => none

/-! ### Concrete data used by witnesses -/

/-- Square-root values used by the concrete witnesses (all inputs encountered
there are perfect rational squares). -/
def sqrt_witness (q : ℚ) : ℚ :=
  if q = 9 / 4 then 3 / 2
  else if q = 4 then 2
  else if q = 40401 / 10000 then 201 / 100
  else if q = 1 then 1
  else 0

/-- A concrete immovable body used by the witnesses. -/
def static_body : rigid_body :=
  { inverse_mass := 0
    inverse_inertia := 0
    linear_damping := 0
    angular_damping := 0
    linear_momentum := 0
    angular_momentum := 0
    linear_velocity := 0
    angular_velocity := 0
    applied_force := 0
    applied_torque := 0
    current_transform := Transform.identity
    previous_transform := Transform.identity
    collider := none }

/-- A concrete dynamic body of unit inverse mass used by the witnesses. -/
def dynamic_unit_body : rigid_body :=
  { static_body with inverse_mass := 1 }

/-- A concrete unit-normal contact of depth 0.05 used by the witnesses. -/
def unit_contact : collision_contact :=
  { point := 0, normal := ⟨0, 1, 0⟩, depth := 1 / 20 }

/-- Concrete unit-radius sphere body placed at a given world position. -/
def sphere_body (pos : Vec3) : rigid_body :=
  { static_body with
    inverse_mass := 1
    current_transform := { Transform.identity with translation := pos }
    collider := some ⟨.sphere 0 1, 1, default_material⟩ }

/-- Two concrete dynamic unit spheres indexed by Fin 2, for the witnesses. -/
def demo_bodies : Fin 2 → rigid_body := fun i =>
  if i = 0 then sphere_body ⟨0, 0, 0⟩ else sphere_body ⟨3 / 2, 0, 0⟩

/-- The manifold produced by the demo sphere pair at center distance 1.5. -/
def demo_manifold : collision_manifold :=
  { body_a := demo_bodies 0
    body_b := demo_bodies 1
    contacts := [{ point := ⟨3 / 4, 0, 0⟩, normal := ⟨1, 0, 0⟩, depth := 1 / 2 }] }

/-- A concrete body sliding tangentially into a unit-normal contact. -/
def sliding_body_a : rigid_body :=
  { dynamic_unit_body with linear_velocity := ⟨1, 1, 0⟩ }

/-- The contact used by the sliding witness. -/
def sliding_contact : collision_contact :=
  { point := 0, normal := ⟨0, 1, 0⟩, depth := 0 }

/-- The per-contact resolution of the sliding scenario (restitution 0, static
friction 1/2, dynamic friction 1/4, unit mass sum, one contact). -/
def sliding_result : contact_result :=
  resolve_contact sqrt_witness 0 (1 / 2) (1 / 4) 1 1 sliding_body_a
    dynamic_unit_body sliding_contact

/-! ### Helper lemmas -/

attribute [ext] Vec3 Quat Mat3 Transform collision_contact

@[simp] theorem Vec3.add_x (a b : Vec3) : (a + b).x = a.x + b.x := rfl

@[simp] theorem Vec3.add_y (a b : Vec3) : (a + b).y = a.y + b.y := rfl

@[simp] theorem Vec3.add_z (a b : Vec3) : (a + b).z = a.z + b.z := rfl

@[simp] theorem Vec3.sub_x (a b : Vec3) : (a - b).x = a.x - b.x := rfl

@[simp] theorem Vec3.sub_y (a b : Vec3) : (a - b).y = a.y - b.y := rfl

@[simp] theorem Vec3.sub_z (a b : Vec3) : (a - b).z = a.z - b.z := rfl

@[simp] theorem Vec3.neg_x (a : Vec3) : (-a).x = -a.x := rfl

@[simp] theorem Vec3.neg_y (a : Vec3) : (-a).y = -a.y := rfl

@[simp] theorem Vec3.neg_z (a : Vec3) : (-a).z = -a.z := rfl

@[simp] theorem Vec3.mul_x (a b : Vec3) : (a * b).x = a.x * b.x := rfl

@[simp] theorem Vec3.mul_y (a b : Vec3) : (a * b).y = a.y * b.y := rfl

@[simp] theorem Vec3.mul_z (a b : Vec3) : (a * b).z = a.z * b.z := rfl

@[simp] theorem Vec3.smul_x (s : ℚ) (a : Vec3) : (s * a).x = s * a.x := rfl

@[simp] theorem Vec3.smul_y (s : ℚ) (a : Vec3) : (s * a).y = s * a.y := rfl

@[simp] theorem Vec3.smul_z (s : ℚ) (a : Vec3) : (s * a).z = s * a.z := rfl

@[simp] theorem Vec3.smulr_x (a : Vec3) (s : ℚ) : (a * s).x = s * a.x := rfl

@[simp] theorem Vec3.smulr_y (a : Vec3) (s : ℚ) : (a * s).y = s * a.y := rfl

@[simp] theorem Vec3.smulr_z (a : Vec3) (s : ℚ) : (a * s).z = s * a.z := rfl

@[simp] theorem Vec3.div_x (a : Vec3) (s : ℚ) : (a / s).x = a.x / s := rfl

@[simp] theorem Vec3.div_y (a : Vec3) (s : ℚ) : (a / s).y = a.y / s := rfl

@[simp] theorem Vec3.div_z (a : Vec3) (s : ℚ) : (a / s).z = a.z / s := rfl

@[simp] theorem Vec3.zero_x : (0 : Vec3).x = 0 := rfl

@[simp] theorem Vec3.zero_y : (0 : Vec3).y = 0 := rfl

@[simp] theorem Vec3.zero_z : (0 : Vec3).z = 0 := rfl

theorem Vec3.smul_one (a : Vec3) : a * (1 : ℚ) = a := by
  ext <;> simp

theorem Vec3.smul_zero_right (a : Vec3) : a * (0 : ℚ) = 0 := by
  ext <;> simp

theorem Vec3.zero_smul_left (s : ℚ) : (0 : Vec3) * s = 0 := by
  ext <;> simp

theorem Vec3.add_zero_right (a : Vec3) : a + 0 = a := by
  ext <;> simp

theorem Vec3.zero_dot (v : Vec3) : Vec3.dot 0 v = 0 := by
  simp [Vec3.dot]

theorem Vec3.zero_qsmul (v : Vec3) : (0 : ℚ) * v = 0 := by
  ext <;> simp

@[simp] theorem Mat3.zero_r0 : (0 : Mat3).r0 = 0 := rfl

@[simp] theorem Mat3.zero_r1 : (0 : Mat3).r1 = 0 := rfl

@[simp] theorem Mat3.zero_r2 : (0 : Mat3).r2 = 0 := rfl

theorem Mat3.zero_mulVec (v : Vec3) : (0 : Mat3) * v = 0 := by
  show Mat3.mulVec 0 v = 0
  ext <;> simp [Mat3.mulVec, Vec3.zero_dot]

@[simp] theorem Quat.add_w (a b : Quat) : (a + b).w = a.w + b.w := rfl

@[simp] theorem Quat.add_qx (a b : Quat) : (a + b).x = a.x + b.x := rfl

@[simp] theorem Quat.add_qy (a b : Quat) : (a + b).y = a.y + b.y := rfl

@[simp] theorem Quat.add_qz (a b : Quat) : (a + b).z = a.z + b.z := rfl

@[simp] theorem Quat.sub_w (a b : Quat) : (a - b).w = a.w - b.w := rfl

@[simp] theorem Quat.sub_qx (a b : Quat) : (a - b).x = a.x - b.x := rfl

@[simp] theorem Quat.sub_qy (a b : Quat) : (a - b).y = a.y - b.y := rfl

@[simp] theorem Quat.sub_qz (a b : Quat) : (a - b).z = a.z - b.z := rfl

@[simp] theorem Quat.smul_w (s : ℚ) (a : Quat) : (Quat.smul s a).w = s * a.w := rfl

@[simp] theorem Quat.smul_qx (s : ℚ) (a : Quat) : (Quat.smul s a).x = s * a.x := rfl

@[simp] theorem Quat.smul_qy (s : ℚ) (a : Quat) : (Quat.smul s a).y = s * a.y := rfl

@[simp] theorem Quat.smul_qz (s : ℚ) (a : Quat) : (Quat.smul s a).z = s * a.z := rfl

@[simp] theorem Quat.smulr_w (a : Quat) (s : ℚ) : (a * s).w = s * a.w := rfl

@[simp] theorem Quat.smulr_qx (a : Quat) (s : ℚ) : (a * s).x = s * a.x := rfl

@[simp] theorem Quat.smulr_qy (a : Quat) (s : ℚ) : (a * s).y = s * a.y := rfl

@[simp] theorem Quat.smulr_qz (a : Quat) (s : ℚ) : (a * s).z = s * a.z := rfl

@[simp] theorem Quat.one_w : (1 : Quat).w = 1 := rfl

@[simp] theorem Quat.one_x : (1 : Quat).x = 0 := rfl

@[simp] theorem Quat.one_y : (1 : Quat).y = 0 := rfl

@[simp] theorem Quat.one_z : (1 : Quat).z = 0 := rfl

theorem integrate_forces_no_input (b : rigid_body) (hf : b.applied_force = 0)
    (ht : b.applied_torque = 0) (hld : b.linear_damping = 0)
    (had : b.angular_damping = 0) (dt : ℚ) :
    (b.integrate_forces dt).linear_momentum = b.linear_momentum ∧
    (b.integrate_forces dt).angular_momentum = b.angular_momentum := by
  simp only [rigid_body.integrate_forces, hf, ht, hld, had, Vec3.zero_smul_left,
    Vec3.add_zero_right, zero_mul, sub_zero]
  rw [max_eq_right zero_le_one, Vec3.smul_one, Vec3.smul_one]
  exact ⟨rfl, rfl⟩

theorem integrate_forces_foldl_invariant (dts : List ℚ) (b : rigid_body)
    (hf : b.applied_force = 0) (ht : b.applied_torque = 0)
    (hld : b.linear_damping = 0) (had : b.angular_damping = 0) :
    (dts.foldl rigid_body.integrate_forces b).linear_momentum = b.linear_momentum ∧
    (dts.foldl rigid_body.integrate_forces b).angular_momentum = b.angular_momentum := by
  induction dts generalizing b with
  | nil => exact ⟨rfl, rfl⟩
  | cons dt rest ih =>
    simp only [List.foldl_cons]
    obtain ⟨hl, ha⟩ := ih (b.integrate_forces dt) rfl rfl hld had
    obtain ⟨hl0, ha0⟩ := integrate_forces_no_input b hf ht hld had dt
    exact ⟨hl.trans hl0, ha.trans ha0⟩

/-! ### Claim theorems -/

/-- C5: after integrate_forces(dt), the linear momentum equals the old momentum
plus force·dt, scaled by max(0, 1 − linear_damping·dt); the angular momentum is
analogous with torque and angular damping; the velocities are inverse mass or
inverse inertia times the new momenta; both accumulators are cleared; and with
zero applied force/torque and zero damping any sequence of integrate_forces
calls leaves both momenta unchanged. -/
theorem integrate_forces_spec (b : rigid_body) (dt : ℚ) :
    (b.integrate_forces dt).linear_momentum =
        (b.linear_momentum + b.applied_force * dt) * max 0 (1 - b.linear_damping * dt)
  ∧ (b.integrate_forces dt).angular_momentum =
        (b.angular_momentum + b.applied_torque * dt) * max 0 (1 - b.angular_damping * dt)
  ∧ (b.integrate_forces dt).linear_velocity =
        b.inverse_mass * (b.integrate_forces dt).linear_momentum
  ∧ (b.integrate_forces dt).angular_velocity =
        b.inverse_inertia * (b.integrate_forces dt).angular_momentum
  ∧ (b.integrate_forces dt).applied_force = 0
  ∧ (b.integrate_forces dt).applied_torque = 0
  ∧ (b.applied_force = 0 → b.applied_torque = 0 → b.linear_damping = 0 →
      b.angular_damping = 0 → ∀ dts : List ℚ,
      (dts.foldl rigid_body.integrate_forces b).linear_momentum = b.linear_momentum ∧
      (dts.foldl rigid_body.integrate_forces b).angular_momentum = b.angular_momentum) :=
  ⟨rfl, rfl, rfl, rfl, rfl, rfl, fun hf ht hld had dts =>
    integrate_forces_foldl_invariant dts b hf ht hld had⟩

/-- C5 witness: the specification evaluated on a concrete body with no applied
force, torque or damping, over a concrete two-step sequence. -/
theorem integrate_forces_spec_witness :
    (([(1 : ℚ), 2].foldl rigid_body.integrate_forces static_body).linear_momentum =
        static_body.linear_momentum) ∧
    (static_body.integrate_forces 1).applied_force = 0 := by
  have h := integrate_forces_spec static_body 1
  exact ⟨((h.2.2.2.2.2.2 rfl rfl rfl rfl) [(1 : ℚ), 2]).1, h.2.2.2.2.1⟩

/-- C6 counterexample: a static body (zero inverse mass and zero inverse
inertia) subjected to the impulse (1,0,0) has its linear momentum changed by
apply_impulse, so momentum is not left unchanged as claimed. -/
theorem apply_impulse_static_momentum_counterexample :
    static_body.is_static ∧ static_body.inverse_inertia = 0 ∧
    (static_body.apply_impulse ⟨1, 0, 0⟩ 0).linear_momentum ≠ static_body.linear_momentum := by
  refine ⟨rfl, rfl, ?_⟩
  intro hEq
  have hx := congrArg Vec3.x hEq
  simp [static_body, rigid_body.apply_impulse] at hx

/-- C6 amended: for every static rigid body (inverse mass = 0 and inverse
inertia = 0) and every impulse and application point, apply_impulse leaves the
body's linear and angular velocities at zero — the body stays immovable — while
the momentum accumulators do absorb the impulse. -/
theorem apply_impulse_static_velocities (b : rigid_body) (h : b.is_static)
    (hinertia : b.inverse_inertia = 0) (impulse radius : Vec3) :
    (b.apply_impulse impulse radius).linear_velocity = 0 ∧
    (b.apply_impulse impulse radius).angular_velocity = 0 := by
  have hm : b.inverse_mass = 0 := h
  simp only [rigid_body.apply_impulse, hm, hinertia]
  exact ⟨Vec3.zero_qsmul _, Mat3.zero_mulVec _⟩

/-- C6 amended witness: the amended statement evaluated on the concrete static
body with impulse (1,0,0) applied at the origin. -/
theorem apply_impulse_static_velocities_witness :
    (static_body.apply_impulse ⟨1, 0, 0⟩ 0).linear_velocity = 0 ∧
    (static_body.apply_impulse ⟨1, 0, 0⟩ 0).angular_velocity = 0 :=
  apply_impulse_static_velocities static_body rfl rfl ⟨1, 0, 0⟩ 0

theorem lerp_zero (x y : Vec3) : lerp x y 0 = x := by
  ext <;> simp [lerp]

theorem lerp_one (x y : Vec3) : lerp x y 1 = y := by
  ext <;> simp [lerp]

theorem lerpq_zero (x y : Quat) : lerpq x y 0 = x := by
  ext <;> simp [lerpq]

theorem lerpq_one (x y : Quat) : lerpq x y 1 = y := by
  ext <;> simp [lerpq]

theorem Quat.smul_one_left (a : Quat) : Quat.smul 1 a = a := by
  ext <;> simp

theorem nlerp_zero (sq : ℚ → ℚ) (x y : Quat) (h : sq (Quat.sqr_norm x) = 1) :
    nlerp sq x y 0 = x := by
  simp only [nlerp, lerpq_zero, h]
  rw [one_div_one]
  exact Quat.smul_one_left _

theorem nlerp_one (sq : ℚ → ℚ) (x y : Quat) (h : sq (Quat.sqr_norm y) = 1) :
    nlerp sq x y 1 = y := by
  simp only [nlerp, lerpq_one, h]
  rw [one_div_one]
  exact Quat.smul_one_left _

/-- C7: with unit previous and current rotations (their squared norms evaluate
to 1 under the square root in use), interpolate(0) returns the previous
transform exactly and interpolate(1) returns the current transform exactly, in
every component; interpolate is a pure function of the body, so it mutates no
body state. -/
theorem interpolate_boundary_spec (sq : ℚ → ℚ) (b : rigid_body)
    (h0 : sq (Quat.sqr_norm b.previous_transform.rotation) = 1)
    (h1 : sq (Quat.sqr_norm b.current_transform.rotation) = 1) :
    b.interpolate sq 0 = b.previous_transform ∧
    b.interpolate sq 1 = b.current_transform := by
  constructor
  · simp only [rigid_body.interpolate, lerp_zero, nlerp_zero sq _ _ h0]
  · simp only [rigid_body.interpolate, lerp_one, nlerp_one sq _ _ h1]

/-- C7 witness: the boundary property evaluated on the concrete static body,
whose stored rotations are the identity quaternion. -/
theorem interpolate_boundary_spec_witness :
    static_body.interpolate sqrt_witness 0 = static_body.previous_transform ∧
    static_body.interpolate sqrt_witness 1 = static_body.current_transform := by
  have hnorm : Quat.sqr_norm (1 : Quat) = 1 := by
    norm_num [Quat.sqr_norm]
  have hq : sqrt_witness (Quat.sqr_norm (1 : Quat)) = 1 := by
    rw [hnorm]
    norm_num [sqrt_witness]
  exact interpolate_boundary_spec sqrt_witness static_body hq hq

/-- C4: per manifold contact, position correction changes only the body
positions — momenta, velocities, rotation, scale and the previous transform are
untouched — displacing body A by the opposite of
normal · (max(0, depth − 0.01) / sum_inverse_mass) · 0.4 times its inverse mass
and body B by the same vector times its inverse mass; and for two bodies of
equal inverse mass and a unit-normal contact of depth 0.05 the displacements
are equal and opposite with combined separation exactly 0.016 along the
normal. -/
theorem correct_positions_spec :
    (∀ (sim : ℚ) (A B : rigid_body) (contact : collision_contact),
      (correct_contact sim A B contact).1.linear_momentum = A.linear_momentum
      ∧ (correct_contact sim A B contact).1.angular_momentum = A.angular_momentum
      ∧ (correct_contact sim A B contact).1.linear_velocity = A.linear_velocity
      ∧ (correct_contact sim A B contact).1.angular_velocity = A.angular_velocity
      ∧ (correct_contact sim A B contact).1.previous_transform = A.previous_transform
      ∧ (correct_contact sim A B contact).1.current_transform.rotation =
          A.current_transform.rotation
      ∧ (correct_contact sim A B contact).1.current_transform.scale =
          A.current_transform.scale
      ∧ (correct_contact sim A B contact).2.linear_momentum = B.linear_momentum
      ∧ (correct_contact sim A B contact).2.angular_momentum = B.angular_momentum
      ∧ (correct_contact sim A B contact).2.linear_velocity = B.linear_velocity
      ∧ (correct_contact sim A B contact).2.angular_velocity = B.angular_velocity
      ∧ (correct_contact sim A B contact).2.previous_transform = B.previous_transform
      ∧ (correct_contact sim A B contact).2.current_transform.rotation =
          B.current_transform.rotation
      ∧ (correct_contact sim A B contact).2.current_transform.scale =
          B.current_transform.scale
      ∧ (correct_contact sim A B contact).1.get_position =
          A.get_position -
            (contact.normal * (max 0 (contact.depth - (1 : ℚ) / 100) / sim) * ((2 : ℚ) / 5)) *
              A.inverse_mass
      ∧ (correct_contact sim A B contact).2.get_position =
          B.get_position +
            (contact.normal * (max 0 (contact.depth - (1 : ℚ) / 100) / sim) * ((2 : ℚ) / 5)) *
              B.inverse_mass)
  ∧ (∀ (im : ℚ) (A B : rigid_body) (contact : collision_contact),
      im ≠ 0 → A.inverse_mass = im → B.inverse_mass = im →
      contact.depth = 1 / 20 → Vec3.sqr_length contact.normal = 1 →
      ((correct_contact (A.inverse_mass + B.inverse_mass) A B contact).1.get_position -
          A.get_position) =
        -((correct_contact (A.inverse_mass + B.inverse_mass) A B contact).2.get_position -
            B.get_position)
      ∧ Vec3.dot
          (((correct_contact (A.inverse_mass + B.inverse_mass) A B contact).2.get_position -
              B.get_position) -
           ((correct_contact (A.inverse_mass + B.inverse_mass) A B contact).1.get_position -
              A.get_position))
          contact.normal = 2 / 125) := by
  constructor
  · intro sim A B contact
    refine ⟨rfl, rfl, rfl, rfl, rfl, rfl, rfl, rfl, rfl, rfl, rfl, rfl, rfl, rfl, ?_, ?_⟩
    · ext <;> simp [correct_contact, rigid_body.set_position, rigid_body.get_position,
        depth_threshold, correction_factor] <;> ring
    · ext <;> simp [correct_contact, rigid_body.set_position, rigid_body.get_position,
        depth_threshold, correction_factor] <;> ring
  · intro im A B contact him hA hB hdepth hnormal
    have hmax : max 0 (contact.depth - depth_threshold) = 1 / 25 := by
      rw [hdepth]
      norm_num [depth_threshold]
    have him2 : im + im ≠ 0 := by
      intro h
      exact him (by linarith)
    have h3 : (im + im) * (im + im)⁻¹ = 1 := mul_inv_cancel₀ him2
    constructor
    · simp only [correct_contact, rigid_body.set_position, rigid_body.get_position, hmax,
        correction_factor, hA, hB]
      ext <;> simp <;> ring
    · simp only [correct_contact, rigid_body.set_position, rigid_body.get_position, hmax,
        correction_factor, hA, hB]
      simp only [Vec3.sqr_length, Vec3.dot] at hnormal ⊢
      simp only [Vec3.sub_x, Vec3.sub_y, Vec3.sub_z, Vec3.add_x, Vec3.add_y, Vec3.add_z,
        Vec3.smulr_x, Vec3.smulr_y, Vec3.smulr_z, Vec3.smul_x, Vec3.smul_y, Vec3.smul_z]
      linear_combination (2 / 125 : ℚ) * hnormal +
        ((2 / 125 : ℚ) *
          (contact.normal.x * contact.normal.x + contact.normal.y * contact.normal.y +
            contact.normal.z * contact.normal.z)) * h3

/-- C4 witness: the scenario part evaluated on two concrete unit-inverse-mass
bodies with a depth-0.05, unit-normal contact. -/
theorem correct_positions_spec_witness :
    ((correct_contact (dynamic_unit_body.inverse_mass + dynamic_unit_body.inverse_mass)
        dynamic_unit_body dynamic_unit_body
        unit_contact).1.get_position - dynamic_unit_body.get_position) =
      -((correct_contact (dynamic_unit_body.inverse_mass + dynamic_unit_body.inverse_mass)
          dynamic_unit_body dynamic_unit_body
          unit_contact).2.get_position - dynamic_unit_body.get_position) := by
  have h := (correct_positions_spec.2 1 dynamic_unit_body dynamic_unit_body
    unit_contact one_ne_zero rfl rfl rfl
    (by norm_num [unit_contact, Vec3.sqr_length, Vec3.dot])).1
  exact h

/-- C1: the sphere–sphere narrow-phase routine produces a manifold exactly when
the distance between the world-space centers is positive and at most the sum of
the radii, and the single contact it produces has
depth = sum_radii − distance, normal = (center_b − center_a)/distance and
point = center_a + normal · (radius_a − depth/2); concretely, two unit spheres
at center distance 1.5 yield exactly one contact of depth 0.5, at distance 2.0
one contact of depth 0, and at distance 2.01 no manifold. -/
theorem narrow_phase_sphere_sphere_spec (sq : ℚ → ℚ) (body_a body_b : rigid_body)
    (ca cb center_a center_b : Vec3) (ra rb dist : ℚ) (la lb : Nat) (ma mb : Material)
    (hca : body_a.collider = some ⟨.sphere ca ra, la, ma⟩)
    (hcb : body_b.collider = some ⟨.sphere cb rb, lb, mb⟩)
    (hcA : center_a = Transform.apply body_a.current_transform ca)
    (hcB : center_b = Transform.apply body_b.current_transform cb)
    (hdist : dist = sq (Vec3.sqr_length (center_b - center_a)))
    (hsq : dist * dist = Vec3.sqr_length (center_b - center_a))
    (hnn : 0 ≤ dist) (hra : 0 ≤ ra) (hrb : 0 ≤ rb) :
    ((narrow_phase_sphere_sphere sq body_a body_b).isSome ↔
        (0 < dist ∧ dist ≤ ra + rb))
  ∧ (∀ m, narrow_phase_sphere_sphere sq body_a body_b = some m →
        m.body_a = body_a ∧ m.body_b = body_b ∧
        m.contacts =
          [{ point := center_a + ((center_b - center_a) / dist) * (ra - (ra + rb - dist) / 2)
             normal := (center_b - center_a) / dist
             depth := ra + rb - dist }])
  ∧ ((narrow_phase_sphere_sphere sqrt_witness (sphere_body ⟨0, 0, 0⟩)
        (sphere_body ⟨3 / 2, 0, 0⟩)).map (fun m => m.contacts.map collision_contact.depth)
        = some [1 / 2])
  ∧ ((narrow_phase_sphere_sphere sqrt_witness (sphere_body ⟨0, 0, 0⟩)
        (sphere_body ⟨2, 0, 0⟩)).map (fun m => m.contacts.map collision_contact.depth)
        = some [0])
  ∧ (narrow_phase_sphere_sphere sqrt_witness (sphere_body ⟨0, 0, 0⟩)
        (sphere_body ⟨201 / 100, 0, 0⟩) = none) := by
  have hsum : 0 ≤ ra + rb := add_nonneg hra hrb
  refine ⟨?_, ?_, ?_, ?_, ?_⟩
  · simp only [narrow_phase_sphere_sphere, hca, hcb, ← hcA, ← hcB]
    split_ifs with h1 h2
    · simp only [Option.isSome_none, Bool.false_eq_true, false_iff]
      rintro ⟨hd0, hdle⟩
      nlinarith [hsq, hnn]
    · simp only [Option.isSome_none, Bool.false_eq_true, false_iff]
      rintro ⟨hd0, hdle⟩
      nlinarith [hsq]
    · simp only [Option.isSome_some, true_iff]
      constructor
      · rcases lt_or_eq_of_le hnn with h | h
        · exact h
        · exfalso
          apply h2
          rw [← hsq, ← h, mul_zero]
      · nlinarith [hsq]
  · intro m hm
    simp only [narrow_phase_sphere_sphere, hca, hcb, ← hcA, ← hcB] at hm
    split_ifs at hm with h1 h2
    injection hm with hm
    subst hm
    refine ⟨rfl, rfl, ?_⟩
    simp only [List.cons.injEq, and_true]
    ext
    all_goals
      simp only [← hdist, Vec3.add_x, Vec3.add_y, Vec3.add_z, Vec3.sub_x, Vec3.sub_y,
        Vec3.sub_z, Vec3.div_x, Vec3.div_y, Vec3.div_z, Vec3.smulr_x, Vec3.smulr_y,
        Vec3.smulr_z]
    all_goals ring
  · norm_num [narrow_phase_sphere_sphere, sphere_body, static_body, Transform.identity,
      Transform.apply, Quat.rotate, Quat.mul, Quat.conj, Vec3.sqr_length, Vec3.dot,
      sqrt_witness]
  · norm_num [narrow_phase_sphere_sphere, sphere_body, static_body, Transform.identity,
      Transform.apply, Quat.rotate, Quat.mul, Quat.conj, Vec3.sqr_length, Vec3.dot,
      sqrt_witness]
  · norm_num [narrow_phase_sphere_sphere, sphere_body, static_body, Transform.identity,
      Transform.apply, Quat.rotate, Quat.mul, Quat.conj, Vec3.sqr_length, Vec3.dot,
      sqrt_witness]

/-- C1 witness: the specification applied to two concrete unit spheres at
center distance 1.5, with all hypotheses discharged by evaluation. -/
theorem narrow_phase_sphere_sphere_spec_witness :
    (narrow_phase_sphere_sphere sqrt_witness (sphere_body ⟨0, 0, 0⟩)
        (sphere_body ⟨3 / 2, 0, 0⟩)).isSome = true := by
  have h := narrow_phase_sphere_sphere_spec sqrt_witness (sphere_body ⟨0, 0, 0⟩)
    (sphere_body ⟨3 / 2, 0, 0⟩) 0 0 ⟨0, 0, 0⟩ ⟨3 / 2, 0, 0⟩ 1 1 (3 / 2) 1 1
    default_material default_material rfl rfl
    (by ext <;> norm_num [sphere_body, static_body, Transform.identity, Transform.apply,
      Quat.rotate, Quat.mul, Quat.conj])
    (by ext <;> norm_num [sphere_body, static_body, Transform.identity, Transform.apply,
      Quat.rotate, Quat.mul, Quat.conj])
    (by norm_num [sqrt_witness, Vec3.sqr_length, Vec3.dot])
    (by norm_num [Vec3.sqr_length, Vec3.dot])
    (by norm_num) (by norm_num) (by norm_num)
  exact h.1.mpr ⟨by norm_num, by norm_num⟩

theorem ite_some_eq {α : Type} (c : Prop) [Decidable c] (a b : α) :
    ((if c then some a else none) = some b) ↔ c ∧ a = b := by
  split_ifs with h <;> simp [h]

theorem mem_detect_collisions_broad {n : Nat} (body : Fin n → rigid_body)
    (p : Fin n × Fin n) :
    p ∈ detect_collisions_broad n body ↔
      p.1 < p.2 ∧ broad_phase_cond (body p.1) (body p.2) := by
  obtain ⟨i, j⟩ := p
  simp only [detect_collisions_broad, List.mem_flatMap, List.mem_filterMap,
    List.mem_finRange, true_and, ite_some_eq]
  constructor
  · rintro ⟨a, b, ⟨hc, heq⟩⟩
    obtain ⟨h1, h2⟩ := Prod.mk.injEq a b i j ▸ heq
    subst h1
    subst h2
    exact hc
  · rintro ⟨hij, hcond⟩
    exact ⟨i, j, ⟨hij, hcond⟩, rfl⟩

theorem detect_collisions_broad_nodup (n : Nat) (body : Fin n → rigid_body) :
    (detect_collisions_broad n body).Nodup := by
  unfold detect_collisions_broad
  rw [List.nodup_flatMap]
  constructor
  · intro i _
    apply List.Nodup.filterMap
    · intro a a' b hb hb'
      simp only [Option.mem_def, ite_some_eq] at hb hb'
      obtain ⟨_, rfl⟩ := hb
      obtain ⟨_, h2⟩ := hb'
      exact (congrArg Prod.snd h2).symm
    · exact List.nodup_finRange n
  · refine (List.nodup_finRange n).imp ?_
    intro a b hne
    simp only [Function.onFun]
    intro x hxa hxb
    simp only [List.mem_filterMap, Option.mem_def, ite_some_eq, List.mem_finRange,
      true_and] at hxa hxb
    obtain ⟨j1, h1, rfl⟩ := hxa
    obtain ⟨j2, h2, heq⟩ := hxb
    exact hne (congrArg Prod.fst heq).symm

/-- C3: the broad phase outputs exactly the body index pairs (i, j) with i
strictly before j in iteration order such that both bodies carry a collider,
the layer masks share a bit, and the bodies are not both static; the output has
no duplicates, never pairs a body with itself, never contains a static–static
pair, and never contains a pair with empty layer-mask intersection. -/
theorem detect_collisions_broad_spec (n : Nat) (body : Fin n → rigid_body) :
    (∀ p : Fin n × Fin n, p ∈ detect_collisions_broad n body ↔
      (p.1 < p.2 ∧ (body p.1).collider.isSome = true ∧ (body p.2).collider.isSome = true ∧
        ((body p.1).collider.elim 0 Collider.layer_mask) &&&
          ((body p.2).collider.elim 0 Collider.layer_mask) ≠ 0 ∧
        ¬((body p.1).is_static ∧ (body p.2).is_static)))
  ∧ (detect_collisions_broad n body).Nodup
  ∧ (∀ p ∈ detect_collisions_broad n body, p.1 ≠ p.2)
  ∧ (∀ p ∈ detect_collisions_broad n body,
      ¬((body p.1).is_static ∧ (body p.2).is_static))
  ∧ (∀ p ∈ detect_collisions_broad n body,
      ((body p.1).collider.elim 0 Collider.layer_mask) &&&
        ((body p.2).collider.elim 0 Collider.layer_mask) ≠ 0) := by
  refine ⟨?_, detect_collisions_broad_nodup n body, ?_, ?_, ?_⟩
  · intro p
    rw [mem_detect_collisions_broad]
    exact Iff.rfl
  · intro p hp
    have h := (mem_detect_collisions_broad body p).mp hp
    exact Fin.ne_of_lt h.1
  · intro p hp
    exact ((mem_detect_collisions_broad body p).mp hp).2.2.2.2
  · intro p hp
    exact ((mem_detect_collisions_broad body p).mp hp).2.2.2.1

/-- C3 witness: the characterization instantiated at two concrete dynamic
spheres, showing the pair (0, 1) is emitted. -/
theorem detect_collisions_broad_spec_witness :
    (⟨0, 1⟩ : Fin 2 × Fin 2) ∈ detect_collisions_broad 2 demo_bodies := by
  refine ((detect_collisions_broad_spec 2 demo_bodies).1 ⟨0, 1⟩).mpr
    ⟨by decide, rfl, rfl, by decide, ?_⟩
  rintro ⟨h0, h1⟩
  revert h0
  simp [demo_bodies, sphere_body, static_body, rigid_body.is_static]

theorem plane_box_collect_length_le (pn : Vec3) (pc : ℚ) (pts : List Vec3)
    (acc : List collision_contact) (hacc : acc.length ≤ 3) :
    (plane_box_collect pn pc pts acc).length ≤ 4 := by
  induction pts generalizing acc with
  | nil =>
    simp only [plane_box_collect]
    omega
  | cons p rest ih =>
    simp only [plane_box_collect]
    split_ifs with h1 h2
    · simp only [List.length_append, List.length_cons, List.length_nil] at h2 ⊢
      omega
    · apply ih
      simp only [List.length_append, List.length_cons, List.length_nil] at h2 ⊢
      omega
    · exact ih acc hacc

theorem narrow_phase_plane_sphere_inv {a b : rigid_body} {m : collision_manifold}
    (hm : narrow_phase_plane_sphere a b = some m) :
    m.body_a = a ∧ m.body_b = b ∧ m.contacts.length = 1 := by
  unfold narrow_phase_plane_sphere at hm
  split at hm
  · dsimp only at hm
    split_ifs at hm
    all_goals first
      | (injection hm with hm
         subst hm
         exact ⟨rfl, rfl, rfl⟩)
      | exact absurd hm (by simp)
  · exact absurd hm (by simp)

theorem narrow_phase_plane_box_inv {a b : rigid_body} {m : collision_manifold}
    (hm : narrow_phase_plane_box a b = some m) :
    m.body_a = a ∧ m.body_b = b ∧ 1 ≤ m.contacts.length ∧ m.contacts.length ≤ 4 := by
  unfold narrow_phase_plane_box at hm
  split at hm
  · dsimp only at hm
    split_ifs at hm with hlen
    all_goals first
      | (injection hm with hm
         subst hm
         exact ⟨rfl, rfl, Nat.one_le_iff_ne_zero.mpr hlen,
           plane_box_collect_length_le _ _ _ [] (by simp)⟩)
      | exact absurd hm (by simp)
  · exact absurd hm (by simp)

theorem narrow_phase_plane_capsule_inv {a b : rigid_body} {m : collision_manifold}
    (hm : narrow_phase_plane_capsule a b = some m) :
    m.body_a = a ∧ m.body_b = b ∧ 1 ≤ m.contacts.length ∧ m.contacts.length ≤ 4 := by
  unfold narrow_phase_plane_capsule at hm
  split at hm
  · dsimp only at hm
    split_ifs at hm with h1 h2 h3
    all_goals first
      | (exfalso
         revert hm
         simp
         done)
      | (injection hm with hm
         subst hm
         refine ⟨rfl, rfl, ?_, ?_⟩ <;> simp
         done)
      | (simp_all
         done)
  · exact absurd hm (by simp)

theorem narrow_phase_sphere_sphere_inv {sq : ℚ → ℚ} {a b : rigid_body}
    {m : collision_manifold} (hm : narrow_phase_sphere_sphere sq a b = some m) :
    m.body_a = a ∧ m.body_b = b ∧ m.contacts.length = 1 := by
  unfold narrow_phase_sphere_sphere at hm
  split at hm
  · dsimp only at hm
    split_ifs at hm
    all_goals first
      | (injection hm with hm
         subst hm
         exact ⟨rfl, rfl, rfl⟩)
      | exact absurd hm (by simp)
  · exact absurd hm (by simp)

theorem narrow_phase_sphere_capsule_inv {sq : ℚ → ℚ} {a b : rigid_body}
    {m : collision_manifold} (hm : narrow_phase_sphere_capsule sq a b = some m) :
    m.body_a = a ∧ m.body_b = b ∧ m.contacts.length = 1 := by
  unfold narrow_phase_sphere_capsule at hm
  split at hm
  · dsimp only at hm
    split_ifs at hm
    all_goals first
      | (injection hm with hm
         subst hm
         exact ⟨rfl, rfl, rfl⟩)
      | exact absurd hm (by simp)
  · exact absurd hm (by simp)

theorem narrow_phase_capsule_capsule_inv {sq : ℚ → ℚ} {a b : rigid_body}
    {m : collision_manifold} (hm : narrow_phase_capsule_capsule sq a b = some m) :
    m.body_a = a ∧ m.body_b = b ∧ m.contacts.length = 1 := by
  unfold narrow_phase_capsule_capsule at hm
  split at hm
  · dsimp only at hm
    split_ifs at hm
    all_goals first
      | (injection hm with hm
         subst hm
         exact ⟨rfl, rfl, rfl⟩)
      | exact absurd hm (by simp)
  · exact absurd hm (by simp)

/-- Every manifold returned by the dispatch table carries the two dispatched
bodies (possibly swapped by a mirrored routine) and between one and four
contacts. -/
theorem narrow_phase_inv (sq : ℚ → ℚ) (a b : rigid_body) (m : collision_manifold)
    (hm : narrow_phase sq a b = some m) :
    ((m.body_a = a ∧ m.body_b = b) ∨ (m.body_a = b ∧ m.body_b = a)) ∧
    1 ≤ m.contacts.length ∧ m.contacts.length ≤ 4 := by
  unfold narrow_phase at hm
  split at hm
  case h_2 => exact absurd hm (by simp)
  case h_1 ca cb =>
    split at hm
    case h_1 =>
      exact absurd hm (by simp [narrow_phase_plane_plane])
    case h_2 =>
      obtain ⟨h1, h2, h3⟩ := narrow_phase_plane_sphere_inv hm
      exact ⟨Or.inl ⟨h1, h2⟩, by omega⟩
    case h_3 =>
      obtain ⟨h1, h2, h3, h4⟩ := narrow_phase_plane_box_inv hm
      exact ⟨Or.inl ⟨h1, h2⟩, h3, h4⟩
    case h_4 =>
      obtain ⟨h1, h2, h3, h4⟩ := narrow_phase_plane_capsule_inv hm
      exact ⟨Or.inl ⟨h1, h2⟩, h3, h4⟩
    case h_5 =>
      unfold narrow_phase_sphere_plane at hm
      obtain ⟨h1, h2, h3⟩ := narrow_phase_plane_sphere_inv hm
      exact ⟨Or.inr ⟨h1, h2⟩, by omega⟩
    case h_6 =>
      obtain ⟨h1, h2, h3⟩ := narrow_phase_sphere_sphere_inv hm
      exact ⟨Or.inl ⟨h1, h2⟩, by omega⟩
    case h_7 => exact absurd hm (by simp)
    case h_8 =>
      obtain ⟨h1, h2, h3⟩ := narrow_phase_sphere_capsule_inv hm
      exact ⟨Or.inl ⟨h1, h2⟩, by omega⟩
    case h_9 =>
      unfold narrow_phase_box_plane at hm
      obtain ⟨h1, h2, h3, h4⟩ := narrow_phase_plane_box_inv hm
      exact ⟨Or.inr ⟨h1, h2⟩, h3, h4⟩
    case h_10 => exact absurd hm (by simp)
    case h_11 => exact absurd hm (by simp)
    case h_12 => exact absurd hm (by simp)
    case h_13 =>
      unfold narrow_phase_capsule_plane at hm
      obtain ⟨h1, h2, h3, h4⟩ := narrow_phase_plane_capsule_inv hm
      exact ⟨Or.inr ⟨h1, h2⟩, h3, h4⟩
    case h_14 =>
      unfold narrow_phase_capsule_sphere at hm
      obtain ⟨h1, h2, h3⟩ := narrow_phase_sphere_capsule_inv hm
      exact ⟨Or.inr ⟨h1, h2⟩, by omega⟩
    case h_15 => exact absurd hm (by simp)
    case h_16 =>
      obtain ⟨h1, h2, h3⟩ := narrow_phase_capsule_capsule_inv hm
      exact ⟨Or.inl ⟨h1, h2⟩, by omega⟩
    case h_17 => exact absurd hm (by simp)
    case h_18 => exact absurd hm (by simp)

/-- C10: every manifold collected by the narrow phase over any pair list has
between 1 and 4 contacts (routines that find nothing append no manifold, and
plane–box stops at four corners), so the per-contact impulse scale
1/contact_count in resolve_collisions is well defined and the fixed-capacity
contact array is never overrun. -/
theorem detect_collisions_narrow_contact_count (sq : ℚ → ℚ) (n : Nat)
    (body : Fin n → rigid_body) (pairs : List (Fin n × Fin n)) :
    ∀ m ∈ detect_collisions_narrow sq n body pairs,
      1 ≤ m.contact_count ∧ m.contact_count ≤ 4 := by
  intro m hm
  simp only [detect_collisions_narrow, List.mem_filterMap] at hm
  obtain ⟨p, _, hp⟩ := hm
  exact (narrow_phase_inv sq _ _ m hp).2

/-- Evaluation of the dispatch table on the demo sphere pair. -/
theorem narrow_phase_demo :
    narrow_phase sqrt_witness (demo_bodies 0) (demo_bodies 1) = some demo_manifold := by
  norm_num [narrow_phase, demo_bodies, sphere_body, static_body, demo_manifold,
    narrow_phase_sphere_sphere, Transform.identity, Transform.apply, Quat.rotate,
    Quat.mul, Quat.conj, Vec3.sqr_length, Vec3.dot, sqrt_witness]
  constructor
  · ext <;> norm_num
  · ext <;> norm_num

/-- C10 witness: the bound evaluated on the manifold produced by the demo
sphere pair. -/
theorem detect_collisions_narrow_contact_count_witness :
    1 ≤ demo_manifold.contact_count ∧ demo_manifold.contact_count ≤ 4 := by
  refine detect_collisions_narrow_contact_count sqrt_witness 2 demo_bodies
    [(0, 1)] demo_manifold ?_
  simp only [detect_collisions_narrow, List.mem_filterMap]
  exact ⟨(0, 1), by simp, narrow_phase_demo⟩

theorem Vec3.dot_cross_comm (x r n : Vec3) :
    Vec3.dot (Vec3.cross x r) n = Vec3.dot x (Vec3.cross r n) := by
  simp only [Vec3.dot, Vec3.cross]
  ring

theorem Vec3.add_dot (u v w : Vec3) :
    Vec3.dot (u + v) w = Vec3.dot u w + Vec3.dot v w := by
  simp only [Vec3.dot, Vec3.add_x, Vec3.add_y, Vec3.add_z]
  ring

theorem sum_pos_of_not_both_zero {x y : ℚ} (hx : 0 ≤ x) (hy : 0 ≤ y)
    (h : ¬(x = 0 ∧ y = 0)) : 0 < x + y := by
  rcases hx.lt_or_eq with h1 | h1
  · linarith
  · rcases hy.lt_or_eq with h2 | h2
    · linarith
    · exact absurd ⟨h1.symm, h2.symm⟩ h

/-- With a positive mass sum and positive-semidefinite inverse inertia tensors,
the impulse denominator is strictly positive for any contact offsets and any
direction: the angular term is dot(I (r × d), r × d) ≥ 0 by the scalar triple
product identity. -/
theorem impulse_denominator_pos (sim : ℚ) (ia ib : Mat3) (ra rb d : Vec3)
    (hsim : 0 < sim)
    (hia : ∀ v, 0 ≤ Vec3.dot (ia * v) v) (hib : ∀ v, 0 ≤ Vec3.dot (ib * v) v) :
    0 < impulse_denominator sim ia ib ra rb d := by
  unfold impulse_denominator
  rw [Vec3.add_dot, Vec3.dot_cross_comm, Vec3.dot_cross_comm]
  have h1 := hia (Vec3.cross ra d)
  have h2 := hib (Vec3.cross rb d)
  linarith

/-- C9: every manifold produced by running the narrow phase over the broad
phase output (the step pipeline) pairs bodies whose inverse masses sum to a
strictly positive value — a body is static in the embedding exactly when its
inverse mass is zero, and the broad phase drops static–static pairs — so the
division by sum_inverse_mass in correct_positions and, given
positive-semidefinite inverse inertia tensors, the reaction and friction
impulse denominators in resolve_collisions are never divisions by zero. -/
theorem pipeline_no_zero_denominators (sq : ℚ → ℚ) (n : Nat)
    (body : Fin n → rigid_body)
    (hmass : ∀ i, 0 ≤ (body i).inverse_mass)
    (hpsd : ∀ i, ∀ v : Vec3, 0 ≤ Vec3.dot ((body i).inverse_inertia * v) v) :
    ∀ m ∈ detect_collisions_narrow sq n body (detect_collisions_broad n body),
      0 < m.body_a.inverse_mass + m.body_b.inverse_mass ∧
      (∀ ra rb d : Vec3,
        0 < impulse_denominator (m.body_a.inverse_mass + m.body_b.inverse_mass)
          m.body_a.inverse_inertia m.body_b.inverse_inertia ra rb d) := by
  intro m hm
  simp only [detect_collisions_narrow, List.mem_filterMap] at hm
  obtain ⟨p, hp_mem, hp⟩ := hm
  have hcond := (mem_detect_collisions_broad body p).mp hp_mem
  have hns : ¬((body p.1).inverse_mass = 0 ∧ (body p.2).inverse_mass = 0) :=
    hcond.2.2.2.2
  have hbodies := (narrow_phase_inv sq _ _ m hp).1
  have hsum : 0 < m.body_a.inverse_mass + m.body_b.inverse_mass := by
    rcases hbodies with ⟨h1, h2⟩ | ⟨h1, h2⟩ <;> rw [h1, h2]
    · exact sum_pos_of_not_both_zero (hmass p.1) (hmass p.2) hns
    · rw [add_comm]
      exact sum_pos_of_not_both_zero (hmass p.1) (hmass p.2) hns
  refine ⟨hsum, ?_⟩
  intro ra rb d
  rcases hbodies with ⟨h1, h2⟩ | ⟨h1, h2⟩ <;> rw [h1, h2] <;> rw [h1, h2] at hsum
  · exact impulse_denominator_pos _ _ _ _ _ _ hsum (hpsd p.1) (hpsd p.2)
  · exact impulse_denominator_pos _ _ _ _ _ _ hsum (hpsd p.2) (hpsd p.1)

/-- C9 witness: the positivity applied to the manifold of the demo sphere
pair, whose bodies have unit inverse mass and zero (hence positive
semidefinite) inverse inertias. -/
theorem pipeline_no_zero_denominators_witness :
    0 < demo_manifold.body_a.inverse_mass + demo_manifold.body_b.inverse_mass := by
  have hmass : ∀ i : Fin 2, 0 ≤ (demo_bodies i).inverse_mass := by
    intro i
    simp only [demo_bodies, sphere_body, static_body]
    split <;> norm_num
  have hpsd : ∀ i : Fin 2, ∀ v : Vec3,
      0 ≤ Vec3.dot ((demo_bodies i).inverse_inertia * v) v := by
    intro i v
    have hz : (demo_bodies i).inverse_inertia = 0 := by
      simp only [demo_bodies, sphere_body, static_body]
      split <;> rfl
    rw [hz, Mat3.zero_mulVec, Vec3.zero_dot]
  have hmem : demo_manifold ∈
      detect_collisions_narrow sqrt_witness 2 demo_bodies
        (detect_collisions_broad 2 demo_bodies) := by
    simp only [detect_collisions_narrow, List.mem_filterMap]
    refine ⟨(0, 1), ?_, narrow_phase_demo⟩
    refine (mem_detect_collisions_broad demo_bodies (0, 1)).mpr ⟨by decide, rfl, rfl, by decide, ?_⟩
    rintro ⟨h0, h1⟩
    revert h0
    simp [demo_bodies, sphere_body, static_body, rigid_body.is_static]
  exact (pipeline_no_zero_denominators sqrt_witness 2 demo_bodies hmass hpsd
    demo_manifold hmem).1

theorem Vec3.sqr_length_smulr (v : Vec3) (s : ℚ) :
    Vec3.sqr_length (v * s) = s * s * Vec3.sqr_length v := by
  simp only [Vec3.sqr_length, Vec3.dot, Vec3.smulr_x, Vec3.smulr_y, Vec3.smulr_z]
  ring

theorem Vec3.sub_eq_add_neg_neg (a b c : Vec3) : a + -b + -c = a - b - c := by
  ext <;> simp <;> ring

/-- C2: in the per-contact resolution, whenever the computed (unclamped)
friction impulse magnitude reaches reaction_impulse_mag · static_friction_coef,
the applied friction scalar is exactly −reaction_impulse_mag ·
dynamic_friction_coef (so its magnitude is the kinetic Coulomb cap, and the
squared length of the applied friction impulse along the unit tangent is the
cap squared), never the raw value; below the threshold the unclamped value is
applied; the friction impulse vector applied to both bodies is the tangent
scaled by that clamped scalar. -/
theorem resolve_contact_coulomb (sq : ℚ → ℚ)
    (restitution_coef static_friction_coef dynamic_friction_coef sim scale : ℚ)
    (A B : rigid_body) (contact : collision_contact) (r : contact_result)
    (hr : r = resolve_contact sq restitution_coef static_friction_coef
      dynamic_friction_coef sim scale A B contact)
    (hskip : r.skipped = false) :
    (r.reaction_impulse_mag * static_friction_coef ≤ abs r.friction_impulse_mag_unclamped →
        r.friction_impulse_mag = -r.reaction_impulse_mag * dynamic_friction_coef
      ∧ (0 ≤ r.reaction_impulse_mag → 0 ≤ dynamic_friction_coef →
          abs r.friction_impulse_mag = r.reaction_impulse_mag * dynamic_friction_coef)
      ∧ (Vec3.sqr_length r.contact_tangent = 1 →
          Vec3.sqr_length r.friction_impulse =
            (r.reaction_impulse_mag * dynamic_friction_coef) *
              (r.reaction_impulse_mag * dynamic_friction_coef)))
  ∧ (abs r.friction_impulse_mag_unclamped < r.reaction_impulse_mag * static_friction_coef →
      r.friction_impulse_mag = r.friction_impulse_mag_unclamped)
  ∧ r.friction_impulse = r.contact_tangent * r.friction_impulse_mag
  ∧ r.body_b.linear_momentum = B.linear_momentum + r.reaction_impulse + r.friction_impulse
  ∧ r.body_a.linear_momentum = A.linear_momentum - r.reaction_impulse - r.friction_impulse := by
  subst hr
  unfold resolve_contact at hskip ⊢
  dsimp only at hskip ⊢
  by_cases hcv : 0 < Vec3.dot
      (B.get_point_velocity (contact.point - B.get_position) -
        A.get_point_velocity (contact.point - A.get_position)) contact.normal
  · rw [if_pos hcv] at hskip
    exact absurd hskip (by simp)
  · rw [if_neg hcv] at hskip ⊢
    dsimp only [rigid_body.apply_impulse]
    refine ⟨?_, ?_, rfl, rfl, Vec3.sub_eq_add_neg_neg _ _ _⟩
    · intro hclamp
      rw [if_pos hclamp]
      refine ⟨by ring, ?_, ?_⟩
      · intro hreac hdyn
        rw [abs_of_nonpos (by nlinarith)]
        ring
      · intro htan
        rw [Vec3.sqr_length_smulr, htan]
        ring
    · intro hlt
      rw [if_neg (not_le.mpr hlt)]

/-- C2 witness: in the sliding scenario the unclamped friction magnitude (1)
reaches reaction · static (1/2), and the applied scalar is the kinetic cap. -/
theorem resolve_contact_coulomb_witness :
    sliding_result.friction_impulse_mag =
      -sliding_result.reaction_impulse_mag * (1 / 4) := by
  have hskip : sliding_result.skipped = false := by
    norm_num [sliding_result, resolve_contact, sliding_body_a, sliding_contact,
      dynamic_unit_body, static_body, rigid_body.get_point_velocity,
      rigid_body.get_position, Transform.identity, Vec3.cross, Vec3.dot]
  have h := resolve_contact_coulomb sqrt_witness 0 (1 / 2) (1 / 4) 1 1
    sliding_body_a dynamic_unit_body sliding_contact sliding_result rfl hskip
  refine (h.1 ?_).1
  norm_num [sliding_result, resolve_contact, sliding_body_a, sliding_contact,
    dynamic_unit_body, static_body, rigid_body.get_point_velocity,
    rigid_body.get_position, rigid_body.apply_impulse, impulse_denominator,
    Transform.identity, Vec3.cross, Vec3.dot, Vec3.sqr_length, sqrt_witness]

/-- The trace loop body equals: keep the state unless the entity contributes a
hit, in which case take it when there is no hit yet or it is strictly nearer. -/
theorem trace_step_eq (sq : ℚ → ℚ) (intersect : Nat → Ray → Option (ℚ × Nat × Vec3))
    (ray : Ray) (ig lm : Nat) (state : Option (Nat × ℚ × Nat × Vec3))
    (entry : Nat × rigid_body) :
    trace_step sq intersect ray ig lm state entry =
      match trace_candidate_hit sq intersect ray ig lm entry, state with
      | none, s => s
      | some h, none => some h
      | some h, some cur => if h.2.1 < cur.2.1 then some h else some cur := by
  rcases entry with ⟨id, body⟩
  unfold trace_step trace_candidate_hit
  dsimp only
  by_cases h1 : id = ig
  · rw [if_pos h1, if_pos h1]
  · rw [if_neg h1, if_neg h1]
    cases hcol : body.collider with
    | none => rfl
    | some col =>
      dsimp only
      by_cases h2 : col.layer_mask &&& lm = 0
      · rw [if_pos h2, if_pos h2]
      · rw [if_neg h2, if_neg h2]
        cases hshape : col.shape with
        | mesh mid =>
          dsimp only
          cases state with
          | none => split <;> rfl
          | some cur => split <;> rfl
        | plane n c => rfl
        | sphere c r => rfl
        | box p q => rfl
        | capsule p q r => rfl

theorem trace_step_none_iff (sq : ℚ → ℚ) (intersect : Nat → Ray → Option (ℚ × Nat × Vec3))
    (ray : Ray) (ig lm : Nat) (state : Option (Nat × ℚ × Nat × Vec3))
    (entry : Nat × rigid_body) :
    trace_step sq intersect ray ig lm state entry = none ↔
      state = none ∧ trace_candidate_hit sq intersect ray ig lm entry = none := by
  rw [trace_step_eq]
  cases hh : trace_candidate_hit sq intersect ray ig lm entry with
  | none => simp
  | some h =>
    cases state with
    | none => simp
    | some cur =>
      dsimp only
      split_ifs <;> simp

/-- Characterization of the trace fold: it yields none exactly when no entity
contributes a hit, and otherwise yields the hit of the first entity attaining
the minimum squared distance (all earlier contributors are strictly farther,
all later ones no nearer). -/
theorem trace_fold_spec (sq : ℚ → ℚ) (intersect : Nat → Ray → Option (ℚ × Nat × Vec3))
    (ray : Ray) (ig lm : Nat) (entities : List (Nat × rigid_body)) :
    (entities.foldl (trace_step sq intersect ray ig lm) none = none ↔
      ∀ e ∈ entities, trace_candidate_hit sq intersect ray ig lm e = none)
  ∧ (∀ res, entities.foldl (trace_step sq intersect ray ig lm) none = some res →
      ∃ l1 e l2, entities = l1 ++ e :: l2 ∧
        trace_candidate_hit sq intersect ray ig lm e = some res ∧
        (∀ e1 ∈ l1, ∀ h1, trace_candidate_hit sq intersect ray ig lm e1 = some h1 →
          res.2.1 < h1.2.1) ∧
        (∀ e2 ∈ l2, ∀ h2, trace_candidate_hit sq intersect ray ig lm e2 = some h2 →
          res.2.1 ≤ h2.2.1)) := by
  induction entities using List.reverseRecOn with
  | nil =>
    constructor
    · simp
    · intro res hres
      simp at hres
  | append_singleton l e ih =>
    have hfold : (l ++ [e]).foldl (trace_step sq intersect ray ig lm) none =
        trace_step sq intersect ray ig lm (l.foldl (trace_step sq intersect ray ig lm) none) e := by
      rw [List.foldl_append]
      rfl
    constructor
    · rw [hfold, trace_step_none_iff, ih.1]
      constructor
      · rintro ⟨hall, he⟩ x hx
        rcases List.mem_append.mp hx with hx | hx
        · exact hall x hx
        · rw [List.mem_singleton.mp hx]
          exact he
      · intro hall
        exact ⟨fun x hx => hall x (List.mem_append_left [e] hx),
          hall e (List.mem_append_right l (List.mem_singleton.mpr rfl))⟩
    · intro res hres
      rw [hfold, trace_step_eq] at hres
      cases hhit : trace_candidate_hit sq intersect ray ig lm e with
      | none =>
        rw [hhit] at hres
        dsimp only at hres
        obtain ⟨l1, w, l2, hsplit, hw, hbefore, hafter⟩ := ih.2 res hres
        refine ⟨l1, w, l2 ++ [e], by rw [hsplit, List.append_assoc]; rfl, hw, hbefore, ?_⟩
        intro e2 he2 h2 hh2
        rcases List.mem_append.mp he2 with he2 | he2
        · exact hafter e2 he2 h2 hh2
        · rw [List.mem_singleton.mp he2] at hh2
          exact absurd (hhit.symm.trans hh2) (by simp)
      | some h =>
        rw [hhit] at hres
        cases hstate : l.foldl (trace_step sq intersect ray ig lm) none with
        | none =>
          rw [hstate] at hres
          dsimp only at hres
          injection hres with hres
          subst hres
          refine ⟨l, e, [], rfl, hhit, ?_, by simp⟩
          intro e1 he1 h1 hh1
          exact absurd ((ih.1.mp hstate e1 he1).symm.trans hh1) (by simp)
        | some cur =>
          rw [hstate] at hres
          dsimp only at hres
          obtain ⟨l1, w, l2, hsplit, hw, hbefore, hafter⟩ := ih.2 cur hstate
          by_cases hlt : h.2.1 < cur.2.1
          · rw [if_pos hlt] at hres
            injection hres with hres
            subst hres
            refine ⟨l, e, [], rfl, hhit, ?_, by simp⟩
            intro e1 he1 h1 hh1
            have hcur_le : cur.2.1 ≤ h1.2.1 := by
              rw [hsplit] at he1
              rcases List.mem_append.mp he1 with he1 | he1
              · exact le_of_lt (hbefore e1 he1 h1 hh1)
              · rcases List.mem_cons.mp he1 with he1 | he1
                · rw [he1] at hh1
                  rw [hw] at hh1
                  injection hh1 with hh1
                  rw [hh1]
                · exact hafter e1 he1 h1 hh1
            exact lt_of_lt_of_le hlt hcur_le
          · rw [if_neg hlt] at hres
            injection hres with hres
            subst hres
            refine ⟨l1, w, l2 ++ [e], by rw [hsplit, List.append_assoc]; rfl, hw, hbefore, ?_⟩
            intro e2 he2 h2 hh2
            rcases List.mem_append.mp he2 with he2 | he2
            · exact hafter e2 he2 h2 hh2
            · rw [List.mem_singleton.mp he2] at hh2
              rw [hhit] at hh2
              injection hh2 with hh2
              rw [← hh2]
              exact le_of_not_lt hlt

/-- C8: trace returns the empty result exactly when no candidate contributes a
hit — an entity is never a candidate when it is the ignored entity, lacks a
collider, shares no layer bit with the mask, or has a non-mesh collider (plane,
sphere, box, capsule) — and when candidates hit, the returned tuple is built
from the hit of the first candidate attaining the minimum squared world-space
distance to the ray origin: earlier candidates are strictly farther and later
ones no nearer, so the first seen wins an exact tie. -/
theorem trace_spec (sq : ℚ → ℚ) (intersect : Nat → Ray → Option (ℚ × Nat × Vec3))
    (entities : List (Nat × rigid_body)) (ray : Ray) (ignore_eid layer_mask : Nat) :
    (∀ e : Nat × rigid_body,
        (e.1 = ignore_eid →
          trace_candidate_hit sq intersect ray ignore_eid layer_mask e = none)
      ∧ (e.2.collider = none →
          trace_candidate_hit sq intersect ray ignore_eid layer_mask e = none)
      ∧ (∀ col, e.2.collider = some col → col.layer_mask &&& layer_mask = 0 →
          trace_candidate_hit sq intersect ray ignore_eid layer_mask e = none)
      ∧ (∀ col, e.2.collider = some col →
          (∀ mid, col.shape ≠ collider_shape.mesh mid) →
          trace_candidate_hit sq intersect ray ignore_eid layer_mask e = none))
  ∧ (trace sq intersect entities ray ignore_eid layer_mask = none ↔
      ∀ e ∈ entities, trace_candidate_hit sq intersect ray ignore_eid layer_mask e = none)
  ∧ (∀ res, trace sq intersect entities ray ignore_eid layer_mask = some res →
      ∃ l1 e l2 h, entities = l1 ++ e :: l2 ∧
        trace_candidate_hit sq intersect ray ignore_eid layer_mask e = some h ∧
        res = (h.1, sq h.2.1, h.2.2) ∧
        (∀ e1 ∈ l1, ∀ h1,
          trace_candidate_hit sq intersect ray ignore_eid layer_mask e1 = some h1 →
          h.2.1 < h1.2.1) ∧
        (∀ e2 ∈ l2, ∀ h2,
          trace_candidate_hit sq intersect ray ignore_eid layer_mask e2 = some h2 →
          h.2.1 ≤ h2.2.1)) := by
  refine ⟨?_, ?_, ?_⟩
  · intro e
    refine ⟨?_, ?_, ?_, ?_⟩
    · intro h
      unfold trace_candidate_hit
      rw [if_pos h]
    · intro h
      unfold trace_candidate_hit
      rw [h]
      split_ifs <;> rfl
    · intro col hcol hmask
      unfold trace_candidate_hit
      rw [hcol]
      split_ifs with hig
      · rfl
      · dsimp only
        rw [if_pos hmask]
    · intro col hcol hmesh
      unfold trace_candidate_hit
      rw [hcol]
      split_ifs with hig
      · rfl
      · dsimp only
        split_ifs with hmask
        · rfl
        · cases hshape : col.shape with
          | mesh mid => exact absurd hshape (hmesh mid)
          | plane n c => rfl
          | sphere c r => rfl
          | box p q => rfl
          | capsule p q r => rfl
  · unfold trace
    rw [Option.map_eq_none']
    exact (trace_fold_spec sq intersect ray ignore_eid layer_mask entities).1
  · intro res hres
    unfold trace at hres
    rw [Option.map_eq_some'] at hres
    obtain ⟨r, hr, hmap⟩ := hres
    obtain ⟨l1, e, l2, hsplit, he, hbefore, hafter⟩ :=
      (trace_fold_spec sq intersect ray ignore_eid layer_mask entities).2 r hr
    exact ⟨l1, e, l2, r, hsplit, he, hmap.symm, hbefore, hafter⟩

/-- C8 witness: a concrete scan over one collider-less entity returns the
empty result, via the characterization. -/
theorem trace_spec_witness :
    trace sqrt_witness (fun _ _ => none) [(5, static_body)] ⟨0, ⟨1, 0, 0⟩⟩ 9 1 = none := by
  refine (trace_spec sqrt_witness (fun _ _ => none) [(5, static_body)]
    ⟨0, ⟨1, 0, 0⟩⟩ 9 1).2.1.mpr ?_
  intro e he
  rw [List.mem_singleton] at he
  subst he
  rfl

end Antkeeper
